import Mathlib

/-!
Verification of the pass-configuration template unit (`src/template.js`) of the
passkit repository.

The development below is a shallow embedding of that file.  JavaScript objects
used as string-keyed records become association lists in insertion order,
JavaScript values stored in a template become the inductive type `JValue`,
thrown exceptions become the `Except` monad, and the asynchronous filesystem
and collaborator calls made by `Template.load` become an explicit environment
record (`LoadEnv`) supplying the outcome of each external operation.

Setters carry the template state inside the error of `Except` so that the
moment at which an exception is raised relative to the stores performed by the
setter is preserved by the translation: `.error (e, t)` means the exception
`e` propagates while the object state is `t`.

External pieces that `template.js` imports but that are not part of the unit
(`PASS_STYLES` from `constants.js`, the `Pass` producer from `pass.js`, the
`PassImages` collection from `lib/images.js`, and Node's WHATWG `URL` class)
are modelled; each model carries a comment stating its scope.
-/

/-- A JavaScript value as it can appear in a parsed `pass.json` definition or
in a template's `fields` record.  `jobj tag` stands for any non-primitive JSON
value (object or array), identified by an opaque tag; its string coercion is
modelled as the plain-object coercion `"[object Object]"`. -/
inductive JValue where
  | str (s : String)
  | boolean (b : Bool)
  | num (n : Int)
  | jobj (tag : Nat)
deriving Repr, DecidableEq

/-- JavaScript `ToString` coercion for the values of `JValue` (used by
`RegExp.exec` and `new URL` when handed a non-string). -/
def jsToString : JValue → String
  | .str s => s
  | .boolean b => if b then "true" else "false"
  | .num n => toString n
  | .jobj _ => "[object Object]"

/-- JavaScript truthiness for the values of `JValue` (used by the guards
`if (path)` and `if (password)` in `Template.keys`). -/
def truthy : JValue → Bool
  | .str s => ¬ s.isEmpty
  | .boolean b => b
  | .num n => n ≠ 0
  | .jobj _ => true

/-- Property read `record[k]` on a string-keyed JavaScript record: the value at
the first (for well-formed records, only) occurrence of the key, or `none` for
`undefined`. -/
def lookupField (fs : List (String × JValue)) (k : String) : Option JValue :=
  match fs with
  | [] => none
  | (k', v) :: rest => if k' = k then some v else lookupField rest k

/-- Property write `record[k] = v` on a string-keyed JavaScript record: an
existing key is updated in place, a new key is appended at the end (JavaScript
insertion order). -/
def setField (fs : List (String × JValue)) (k : String) (v : JValue) : List (String × JValue) :=
  match fs with
  | [] => [(k, v)]
  | (k', v') :: rest => if k' = k then (k, v) :: rest else (k', v') :: setField rest k v

/-- `Object.assign(base, src)`: copy every entry of `src` into `base`, later
entries overwriting earlier ones. -/
def objAssign (base src : List (String × JValue)) : List (String × JValue) :=
  src.foldl (fun acc kv => setField acc kv.1 kv.2) base

/-- First-argument-biased choice on options (the value a key collision
resolves to in a merge where the first operand wins). -/
def optOr {α : Type} (a b : Option α) : Option α :=
  match a with
  | some v => some v
  | none => b

/-- Model of the `PassImages` collection from `lib/images.js` (not part of the
verified unit): only the facts the template unit relies on are kept, namely
that a freshly constructed collection is empty and that `loadFromDirectory`
fills it.  `files` lists the image variants it holds. -/
structure PassImages where
  files : List String
deriving Repr, DecidableEq

/-- The template object of `template.js`.  `keysPath` and `images` are
`Option` because the constructor assigns them only after applying the initial
field mapping (`none` models the JavaScript `undefined` they hold until then);
`keysPath` holds a `JValue` because `Template.keys` stores its argument
unconverted. -/
structure Template where
  style : String
  fields : List (String × JValue)
  keysPath : Option JValue
  password : Option JValue
  images : Option PassImages
deriving Repr, DecidableEq

/-- A thrown JavaScript exception: `error` for `new Error(msg)` raised
explicitly by `template.js`, `typeError` for the `TypeError`s produced by the
runtime (calling a missing method, slicing `null`, invalid URL). -/
inductive JsError where
  | error (msg : String)
  | typeError (msg : String)
deriving Repr, DecidableEq

/-- Model of the style registry `PASS_STYLES` of `constants.js`.  Modelled
from the spec: `constants.js` is not part of the provided sources; the spec
names the variants boardingPass, coupon, eventTicket, generic and storeCard as
the closed, externally defined set, and this list fixes their registry order. -/
def PASS_STYLES : List String :=
  ["boardingPass", "coupon", "eventTicket", "generic", "storeCard"]

/-! ### The color validator

`Template.validateColorValue` runs
`/^rgb\(\s*(\d{1,3}),\s*(\d{1,3}),\s*(\d{1,3})\s*\)$/.exec(value)` and then
range-checks the three captured groups.  The regular expression is embedded as
a deterministic scanner: each `\s*` and `\d{1,3}` is followed in the pattern by
a character that can match neither a whitespace character nor a digit, so the
greedy maximal-run scan below accepts exactly the language of the anchored
regular expression (with `\d{1,3}` realised as "maximal digit run of length
1 to 3").  `isWS` covers the whitespace characters exercised here; the full
JavaScript `\s` class contains further rare code points. -/

/-- Whitespace class used by the embedded regular expression. -/
def isWS (c : Char) : Bool :=
  c = ' ' ∨ c = '\t' ∨ c = '\n' ∨ c = '\r'

/-- Numeric value of a decimal digit character. -/
def digitVal (c : Char) : Nat := c.toNat - '0'.toNat

/-- `parseInt(d, 10)` on a nonempty string of decimal digits. -/
def natOfDigits (l : List Char) : Nat :=
  l.foldl (fun n c => n * 10 + digitVal c) 0

/-- Scan `\s*(\d{1,3})` : drop leading whitespace, read a maximal digit run of
length 1 to 3, return its numeric value and the unscanned remainder. -/
def wsDigits (l : List Char) : Option (Nat × List Char) :=
  let l1 := l.dropWhile isWS
  let d := l1.takeWhile Char.isDigit
  if 1 ≤ d.length ∧ d.length ≤ 3 then
    some (natOfDigits d, l1.dropWhile Char.isDigit)
  else none

/-- Scan a literal comma. -/
def expectComma : List Char → Option (List Char)
  | c :: rest => if c = ',' then some rest else none
  | [] => none

/-- Scan `\s*\)$` : drop whitespace, require a closing parenthesis at the very
end of the input. -/
def closeParen (l : List Char) : Bool :=
  l.dropWhile isWS = [')']

/-- Scanner for the part of the color pattern after the literal `rgb(`. -/
def matchColorTail (l : List Char) : Option (Nat × Nat × Nat) :=
  match wsDigits l with
  | none => none
  | some (r, l1) =>
    match expectComma l1 with
    | none => none
    | some l2 =>
      match wsDigits l2 with
      | none => none
      | some (g, l3) =>
        match expectComma l3 with
        | none => none
        | some l4 =>
          match wsDigits l4 with
          | none => none
          | some (b, l5) => if closeParen l5 then some (r, g, b) else none

/-- The embedded color regular expression: `some (r, g, b)` iff the input
matches `/^rgb\(\s*(\d{1,3}),\s*(\d{1,3}),\s*(\d{1,3})\s*\)$/`, with the three
captured groups parsed as decimal numbers. -/
def matchColor (s : String) : Option (Nat × Nat × Nat) :=
  match s.toList with
  | 'r' :: 'g' :: 'b' :: '(' :: rest => matchColorTail rest
  | _ => none

/-- `Template.validateColorValue` (template.js lines 48-60).  When the regular
expression does not match, `exec` returns `null` and the chained `.slice(1)`
raises a `TypeError`; when it matches, each captured group out of the range
0 to 255 raises `Error("Invalid color value ...")` (a 1-to-3-digit group can
be neither `NaN` nor negative, so those two tests of the source never fire). -/
def Template.validateColorValue (value : String) : Except JsError Unit :=
  match matchColor value with
  | none => .error (.typeError "Cannot read properties of null")
  | some (r, g, b) =>
    if 255 < r then .error (.error ("Invalid color value " ++ value))
    else if 255 < g then .error (.error ("Invalid color value " ++ value))
    else if 255 < b then .error (.error ("Invalid color value " ++ value))
    else .ok ()

/-! ### The URL model

`webServiceURL` delegates to Node's WHATWG `URL` class, which is not part of
the unit.  The model below covers absolute URLs of the hierarchical form
`scheme://host/path`: the scheme is lowercased (WHATWG normalisation), a
missing path serialises as `/`, and inputs without a `scheme://host` skeleton
fail to parse.  Finer WHATWG behaviour (host case folding, percent encoding,
non-hierarchical schemes such as `mailto:`) is outside the model; for the
latter the model and the code agree that the setter fails, though through the
parse branch rather than the scheme branch. -/

/-- Characters allowed in a URL scheme after the leading letter. -/
def isSchemeChar (c : Char) : Bool :=
  c.isAlpha ∨ c.isDigit ∨ c = '+' ∨ c = '-' ∨ c = '.'

/-- A parsed absolute URL. -/
structure URLModel where
  scheme : String
  host : String
  path : String
deriving Repr, DecidableEq

/-- The `protocol` property of a parsed URL: lowercased scheme plus colon. -/
def URLModel.protocol (u : URLModel) : String := u.scheme ++ ":"

/-- The normalised serialisation `url.toString()`. -/
def URLModel.toString (u : URLModel) : String :=
  u.scheme ++ "://" ++ u.host ++ u.path

/-- Model of `new URL(s)` for hierarchical absolute URLs; `none` models the
`TypeError` thrown on input that does not parse as an absolute URL. -/
def parseURL (s : String) : Option URLModel :=
  let l := s.toList
  let scheme := l.takeWhile (fun c => c ≠ ':')
  match scheme, l.dropWhile (fun c => c ≠ ':') with
  | c :: cs, ':' :: '/' :: '/' :: afterSlashes =>
    if c.isAlpha ∧ cs.all isSchemeChar then
      let host := afterSlashes.takeWhile (fun ch => ch ≠ '/')
      let path := afterSlashes.drop host.length
      if host.isEmpty then none
      else
        some { scheme := String.mk ((c :: cs).map Char.toLower)
               host := String.mk host
               path := if path.isEmpty then "/" else String.mk path }
    else none
  | _, _ => none

/-! ### Field accessors

Every recognised field of `template.js` is one dual-mode method: called with
an argument it (optionally validates and) stores the value and returns `this`,
called with no argument it returns the stored value.  The embedding gives each
method the type
`Template → Option JValue → Except (JsError × Template) (Template × Option JValue)`:
the argument is `some v` for a one-argument call and `none` for a
zero-argument call; a successful call returns the post-state together with the
read value (`none` in the second component for a setter call, whose JavaScript
return value is `this`, i.e. the post-state itself); a thrown exception
carries the state at the moment of the throw. -/

/-- Read branch shared by all accessors. -/
def Template.getField (t : Template) (name : String) : Option JValue :=
  lookupField t.fields name

/-- Store branch shared by all accessors. -/
def Template.storeField (t : Template) (name : String) (v : JValue) : Template :=
  { t with fields := setField t.fields name v }

/-- `passTypeIdentifier` accessor (template.js lines 62-68): stores without
validation. -/
def Template.passTypeIdentifier (t : Template) (arg : Option JValue) :
    Except (JsError × Template) (Template × Option JValue) :=
  match arg with
  | some v => .ok (t.storeField "passTypeIdentifier" v, none)
  | none => .ok (t, t.getField "passTypeIdentifier")

/-- `teamIdentifier` accessor (lines 70-76): stores without validation. -/
def Template.teamIdentifier (t : Template) (arg : Option JValue) :
    Except (JsError × Template) (Template × Option JValue) :=
  match arg with
  | some v => .ok (t.storeField "teamIdentifier" v, none)
  | none => .ok (t, t.getField "teamIdentifier")

/-- `backgroundColor` accessor (lines 78-84): stores without validation. -/
def Template.backgroundColor (t : Template) (arg : Option JValue) :
    Except (JsError × Template) (Template × Option JValue) :=
  match arg with
  | some v => .ok (t.storeField "backgroundColor" v, none)
  | none => .ok (t, t.getField "backgroundColor")

/-- `foregroundColor` accessor (lines 86-93): validates through
`validateColorValue` (which coerces its argument to a string) and only then
stores the original value. -/
def Template.foregroundColor (t : Template) (arg : Option JValue) :
    Except (JsError × Template) (Template × Option JValue) :=
  match arg with
  | some v =>
    match Template.validateColorValue (jsToString v) with
    | .error e => .error (e, t)
    | .ok _ => .ok (t.storeField "foregroundColor" v, none)
  | none => .ok (t, t.getField "foregroundColor")

/-- `labelColor` accessor (lines 95-102): validates through
`validateColorValue` and only then stores the original value. -/
def Template.labelColor (t : Template) (arg : Option JValue) :
    Except (JsError × Template) (Template × Option JValue) :=
  match arg with
  | some v =>
    match Template.validateColorValue (jsToString v) with
    | .error e => .error (e, t)
    | .ok _ => .ok (t.storeField "labelColor" v, none)
  | none => .ok (t, t.getField "labelColor")

/-- `logoText` accessor (lines 104-110): stores without validation. -/
def Template.logoText (t : Template) (arg : Option JValue) :
    Except (JsError × Template) (Template × Option JValue) :=
  match arg with
  | some v => .ok (t.storeField "logoText" v, none)
  | none => .ok (t, t.getField "logoText")

/-- `organizationName` accessor (lines 112-118): stores without validation. -/
def Template.organizationName (t : Template) (arg : Option JValue) :
    Except (JsError × Template) (Template × Option JValue) :=
  match arg with
  | some v => .ok (t.storeField "organizationName" v, none)
  | none => .ok (t, t.getField "organizationName")

/-- `groupingIdentifier` accessor (lines 120-126): stores without
validation. -/
def Template.groupingIdentifier (t : Template) (arg : Option JValue) :
    Except (JsError × Template) (Template × Option JValue) :=
  match arg with
  | some v => .ok (t.storeField "groupingIdentifier" v, none)
  | none => .ok (t, t.getField "groupingIdentifier")

/-- `suppressStripShine` accessor (lines 135-143): rejects any non-boolean
argument before storing. -/
def Template.suppressStripShine (t : Template) (arg : Option JValue) :
    Except (JsError × Template) (Template × Option JValue) :=
  match arg with
  | some v =>
    match v with
    | .boolean b => .ok (t.storeField "suppressStripShine" (.boolean b), none)
    | _ => .error (.error "suppressStripShine value must be a boolean!", t)
  | none => .ok (t, t.getField "suppressStripShine")

/-- `webServiceURL` accessor (lines 152-162): parses the argument as a URL
(a failed parse throws), requires the protocol to be exactly `https:` and
stores the normalised serialisation of the parsed URL.  The embedding covers
the string-argument path of the source (a `URL` instance argument skips the
re-parse but yields the same stored value). -/
def Template.webServiceURL (t : Template) (arg : Option JValue) :
    Except (JsError × Template) (Template × Option JValue) :=
  match arg with
  | some v =>
    match parseURL (jsToString v) with
    | none => .error (.typeError ("Invalid URL: " ++ jsToString v), t)
    | some u =>
      if URLModel.protocol u = "https:" then
        .ok (t.storeField "webServiceURL" (.str (URLModel.toString u)), none)
      else
        .error (.error "webServiceURL must be on HTTPS!", t)
  | none => .ok (t, t.getField "webServiceURL")

/-- `Template.keys(path, password)` (lines 171-174): a truthy `path` replaces
`keysPath`, a truthy `password` replaces `password`; `none` models an omitted
argument. -/
def Template.keys (t : Template) (path password : Option JValue) : Template :=
  let t1 :=
    match path with
    | some p => if truthy p then { t with keysPath := some p } else t
    | none => t
  match password with
  | some pw => if truthy pw then { t1 with password := some pw } else t1
  | none => t1

/-- Model of the `Pass` producer of `pass.js` (not part of the unit).
Modelled from the spec: the Pass Producer collaborator accepts the template,
the merged field mapping and the shared image reference, and this model simply
records the three constructor arguments. -/
structure Pass where
  template : Template
  fields : List (String × JValue)
  images : Option PassImages
deriving Repr, DecidableEq

/-- `Template.createPass(fields)` (lines 183-186): builds
`Object.assign({}, this.fields, fields)` — a fresh record, so the template's
own `fields` is not touched — and hands template, merged fields and the shared
image reference to the `Pass` constructor. -/
def Template.createPass (t : Template) (fields : List (String × JValue)) : Pass :=
  { template := t
    fields := objAssign (objAssign [] t.fields) fields
    images := t.images }

/-- The names of the ten recognised fields (the accessor table of §4.2). -/
def fieldNames : List String :=
  ["passTypeIdentifier", "teamIdentifier", "backgroundColor", "foregroundColor",
   "labelColor", "logoText", "organizationName", "groupingIdentifier",
   "suppressStripShine", "webServiceURL"]

/-- One step of the constructor's field-application loop (template.js lines
32-34): `if (typeof this[field] === 'function') this[field](value)`.  The
lookup `this[field]` goes through the prototype chain, so besides the ten
field accessors it also finds the class methods `keys` and `createPass` (a
one-argument `keys` call stores its argument as `keysPath`; a `createPass`
call builds and discards a `Pass`, leaving the template untouched), the class
itself under the key `"constructor"` (a class constructor invoked without
`new` throws a `TypeError` immediately), and the legacy
`Object.prototype.__defineGetter__` / `__defineSetter__` accessors (which
throw a `TypeError` when their second argument is not a function, as here).
The remaining inherited methods (`toString`, `valueOf`, `hasOwnProperty`,
`isPrototypeOf`, `propertyIsEnumerable`, `toLocaleString`,
`__lookupGetter__`, `__lookupSetter__`) accept the call and leave the object
state untouched, so they fall, together with all non-method keys, under the
final state-preserving case. -/
def Template.applyField (t : Template) (field : String) (v : JValue) :
    Except (JsError × Template) Template :=
  if field = "passTypeIdentifier" then (t.passTypeIdentifier (some v)).map Prod.fst
  else if field = "teamIdentifier" then (t.teamIdentifier (some v)).map Prod.fst
  else if field = "backgroundColor" then (t.backgroundColor (some v)).map Prod.fst
  else if field = "foregroundColor" then (t.foregroundColor (some v)).map Prod.fst
  else if field = "labelColor" then (t.labelColor (some v)).map Prod.fst
  else if field = "logoText" then (t.logoText (some v)).map Prod.fst
  else if field = "organizationName" then (t.organizationName (some v)).map Prod.fst
  else if field = "groupingIdentifier" then (t.groupingIdentifier (some v)).map Prod.fst
  else if field = "suppressStripShine" then (t.suppressStripShine (some v)).map Prod.fst
  else if field = "webServiceURL" then (t.webServiceURL (some v)).map Prod.fst
  else if field = "keys" then .ok (t.keys (some v) none)
  else if field = "createPass" then .ok t
  else if field = "constructor" then
    .error (.typeError "Class constructor Template cannot be invoked without new", t)
  else if field = "__defineGetter__" then
    .error (.typeError "Getter must be a function", t)
  else if field = "__defineSetter__" then
    .error (.typeError "Setter must be a function", t)
  else .ok t

/-- The constructor's `Object.entries(fields).forEach(...)` loop: entries are
applied in insertion order; a thrown exception aborts the whole construction,
so the state at the throw is discarded. -/
def Template.applyEntries (t : Template) : List (String × JValue) → Except JsError Template
  | [] => .ok t
  | (k, v) :: rest =>
    match t.applyField k v with
    | .error (e, _) => .error e
    | .ok t' => t'.applyEntries rest

/-- `new Template(style, fields)` (template.js lines 24-38): an unregistered
style throws `Error`; otherwise `style` is set, `fields` starts empty, the
initial mapping is applied through the dispatch loop, and only afterwards
`keysPath` is assigned `'keys'` and `images` a fresh empty collection
(`password` is never assigned). -/
def Template.construct (style : String) (fields : List (String × JValue)) :
    Except JsError Template :=
  if PASS_STYLES.contains style then
    match Template.applyEntries
        { style := style, fields := [], keysPath := none, password := none, images := none }
        fields with
    | .error e => .error e
    | .ok t => .ok { t with keysPath := some (.str "keys"), images := some { files := [] } }
  else .error (.error ("Unsupported pass style " ++ style))

/-- Key-existence test `k in obj` on a parsed JSON object. -/
def hasKey (j : List (String × JValue)) (k : String) : Bool :=
  j.any (fun kv => kv.1 = k)

/-- The style-detection loop of `Template.load` (lines 210-220):
`PASS_STYLES.some(t => t in passJson && (type = t))` — the first registry
entry, in registry order, that is a top-level key of the parsed object. -/
def detectStyle (passJson : List (String × JValue)) : Option String :=
  PASS_STYLES.find? (fun ty => hasKey passJson ty)

/-- `typeIdentifier.replace(/^pass\./, '')`: strip one leading `pass.`. -/
def stripPassDot (s : String) : String :=
  match s.toList with
  | 'p' :: 'a' :: 's' :: 's' :: '.' :: rest => String.mk rest
  | _ => s

/-- Result of a successful `fs.stat`. -/
structure Stats where
  isDir : Bool
  isFile : Bool
deriving Repr, DecidableEq

/-- The outcomes of the external asynchronous operations performed by one
`Template.load` call: the `stat` of the folder, the combined
read-and-JSON-parse of `pass.json` (an I/O failure and a parse failure are
both a rejection), the image-collection load, and the `stat` of whichever
key-file name gets probed. -/
structure LoadEnv where
  folderStat : Except JsError Stats
  passJson : Except JsError (List (String × JValue))
  imagesLoad : Except JsError PassImages
  keyStat : String → Except JsError Stats

/-- `Template.load(folderPath, keyPassword)` (template.js lines 198-237).
Steps in source order: folder `stat` (a rejection propagates) and directory
check; read and parse of `pass.json` (rejections propagate); style detection
(`Error('Unknown pass style!')` if no registry key occurs); construction (any
validator throw propagates); image loading (rejections propagate).  Then the
key probe: the filename derivation `passJson.passTypeIdentifier.replace(...)`
happens before the `try`, so when the definition has no `passTypeIdentifier`
(or a non-string one) the resulting `TypeError` propagates; only the `stat`
of the derived name and the `isFile` test sit inside the `try`, whose `catch`
swallows every failure. -/
def Template.load (env : LoadEnv) (folderPath : String) (keyPassword : Option JValue) :
    Except JsError Template :=
  match env.folderStat with
  | .error e => .error e
  | .ok stats =>
    if stats.isDir = false then
      .error (.error ("Path " ++ folderPath ++ " must be a directory!"))
    else
      match env.passJson with
      | .error e => .error e
      | .ok passJson =>
        match detectStyle passJson with
        | none => .error (.error "Unknown pass style!")
        | some ty =>
          match Template.construct ty passJson with
          | .error e => .error e
          | .ok t0 =>
            match env.imagesLoad with
            | .error e => .error e
            | .ok imgs =>
              let template := { t0 with images := some imgs }
              match lookupField passJson "passTypeIdentifier" with
              | none => .error (.typeError "Cannot read properties of undefined")
              | some tv =>
                match tv with
                | .str typeIdentifier =>
                  let keyName := stripPassDot typeIdentifier ++ ".pem"
                  match env.keyStat keyName with
                  | .error _ => .ok template
                  | .ok keyStats =>
                    if keyStats.isFile then
                      .ok (template.keys (some (.str folderPath)) keyPassword)
                    else .ok template
                | _ => .error (.typeError "typeIdentifier.replace is not a function")

/-! ### Specification-side predicates -/

/-- A value the color validator accepts (after the string coercion the
validator itself performs). -/
def ColorOk (v : JValue) : Prop :=
  Template.validateColorValue (jsToString v) = .ok ()

/-- A strictly boolean value (the `suppressStripShine` validation). -/
def BoolOk (v : JValue) : Prop := ∃ b, v = JValue.boolean b

/-- A stored web-service URL: the normalised serialisation of some parsed URL
whose protocol is exactly `https:`. -/
def HttpsOk (v : JValue) : Prop :=
  ∃ u : URLModel, URLModel.protocol u = "https:" ∧ v = .str (URLModel.toString u)

/-- The field invariant of §3 of the spec: every value present in `fields`
has passed its field's validator — the two color fields carry
validator-accepted values, `suppressStripShine` carries a boolean and
`webServiceURL` carries the `https` serialisation of a parsed URL (the other
seven fields have no validator, so they constrain nothing). -/
def FieldsInv (fs : List (String × JValue)) : Prop :=
  (∀ v, lookupField fs "foregroundColor" = some v → ColorOk v)
  ∧ (∀ v, lookupField fs "labelColor" = some v → ColorOk v)
  ∧ (∀ v, lookupField fs "suppressStripShine" = some v → BoolOk v)
  ∧ (∀ v, lookupField fs "webServiceURL" = some v → HttpsOk v)

/-- A run of whitespace characters. -/
abbrev WSRun (w : List Char) : Prop := ∀ c ∈ w, isWS c = true

/-- A digit run of length 1 to 3 (the capture `\d{1,3}`). -/
abbrev DigitRun (d : List Char) : Prop :=
  (∀ c ∈ d, Char.isDigit c = true) ∧ 1 ≤ d.length ∧ d.length ≤ 3

/-- A digit run of any positive length (a bare decimal numeral, the way the
claim reads "decimal integers"). -/
abbrev DigitRunAny (d : List Char) : Prop :=
  (∀ c ∈ d, Char.isDigit c = true) ∧ 1 ≤ d.length

/-- The color shape as amended for C4, written independently of the scanner
as an explicit decomposition of the input: `rgb(` then optional whitespace,
a 1-to-3-digit numeral, a comma, optional whitespace, a numeral, a comma,
optional whitespace, a numeral, optional whitespace and `)` — i.e. whitespace
is optional only directly after the opening parenthesis, directly after each
comma and directly before the closing parenthesis. -/
def SpecColorShape (s : String) (r g b : Nat) : Prop :=
  ∃ w1 d1 w2 d2 w3 d3 w4 : List Char,
    s.toList
      = ['r', 'g', 'b', '('] ++ w1 ++ d1 ++ [','] ++ w2 ++ d2 ++ [',']
          ++ w3 ++ d3 ++ w4 ++ [')']
    ∧ WSRun w1 ∧ WSRun w2 ∧ WSRun w3 ∧ WSRun w4
    ∧ DigitRun d1 ∧ DigitRun d2 ∧ DigitRun d3
    ∧ r = natOfDigits d1 ∧ g = natOfDigits d2 ∧ b = natOfDigits d3

/-- The color shape as claim C4 reads it: `rgb(R, G, B)` with optional
whitespace around (on either side of) the commas and the parenthesis
delimiters, and `R`, `G`, `B` decimal numerals of any length. -/
def ClaimColorShape (s : String) (r g b : Nat) : Prop :=
  ∃ w1 d1 a1 w2 d2 a2 w3 d3 w4 : List Char,
    s.toList
      = ['r', 'g', 'b', '('] ++ w1 ++ d1 ++ a1 ++ [','] ++ w2 ++ d2 ++ a2 ++ [',']
          ++ w3 ++ d3 ++ w4 ++ [')']
    ∧ WSRun w1 ∧ WSRun a1 ∧ WSRun w2 ∧ WSRun a2 ∧ WSRun w3 ∧ WSRun w4
    ∧ DigitRunAny d1 ∧ DigitRunAny d2 ∧ DigitRunAny d3
    ∧ r = natOfDigits d1 ∧ g = natOfDigits d2 ∧ b = natOfDigits d3

/-- The keys the constructor's dispatch loop treats specially (the branches of
`Template.applyField`): the ten recognised field names, the class methods
`keys` and `createPass`, and the three prototype-chain entries whose
invocation throws.  Every other key is a no-op for the dispatch — either it
names no function at all, or it names one of the state-neutral inherited
`Object.prototype` methods. -/
def methodNames : List String :=
  fieldNames ++ ["keys", "createPass", "constructor", "__defineGetter__", "__defineSetter__"]

/-- Definition entries on which the constructor's dispatch is guaranteed not
to throw: color fields carry validator-accepted values,
`suppressStripShine` carries a boolean, `webServiceURL` carries a value that
parses as an `https` URL, and the keys `constructor`, `__defineGetter__` and
`__defineSetter__` (whose dispatch throws) do not occur. -/
def goodEntry (kv : String × JValue) : Bool :=
  if kv.1 = "foregroundColor" ∨ kv.1 = "labelColor" then
    match Template.validateColorValue (jsToString kv.2) with
    | .ok _ => true
    | .error _ => false
  else if kv.1 = "suppressStripShine" then
    match kv.2 with
    | .boolean _ => true
    | _ => false
  else if kv.1 = "webServiceURL" then
    match parseURL (jsToString kv.2) with
    | some u => URLModel.protocol u = "https:"
    | none => false
  else if kv.1 = "constructor" then false
  else if kv.1 = "__defineGetter__" then false
  else if kv.1 = "__defineSetter__" then false
  else true

/-- The value a recognised field's setter actually stores for an accepted
argument: the original value for every field except `webServiceURL`, whose
setter stores the normalised serialisation of the parsed URL (the `none`
branch is never reached for accepted arguments). -/
def storedVal (k : String) (v : JValue) : JValue :=
  if k = "webServiceURL" then
    match parseURL (jsToString v) with
    | some u => .str (URLModel.toString u)
    | none => v
  else v

/-! ### Record lemmas -/

/-- Reading after a store: the stored key returns the new value, any other key
is untouched. -/
theorem lookupField_setField (fs : List (String × JValue)) (k : String) (v : JValue)
    (k' : String) :
    lookupField (setField fs k v) k' = if k' = k then some v else lookupField fs k' := by
  induction fs with
  | nil =>
    by_cases h : k' = k
    · simp [setField, lookupField, h]
    · simp [setField, lookupField, h, Ne.symm h]
  | cons kv rest ih =>
    obtain ⟨a, b⟩ := kv
    by_cases ha : a = k
    · subst ha
      by_cases h : a = k'
      · subst h
        simp [setField, lookupField]
      · simp [setField, lookupField, h, Ne.symm h]
    · by_cases h : a = k'
      · subst h
        simp [setField, lookupField, ha]
      · simp [setField, lookupField, ha, h, ih]

/-- A key that does not occur in a record reads as `undefined`. -/
theorem lookupField_eq_none_of_not_mem (fs : List (String × JValue)) (k : String)
    (h : k ∉ fs.map Prod.fst) : lookupField fs k = none := by
  induction fs with
  | nil => rfl
  | cons kv rest ih =>
    obtain ⟨a, b⟩ := kv
    simp only [List.map_cons, List.mem_cons] at h
    push_neg at h
    simp [lookupField, Ne.symm h.1, ih h.2]

/-- Storing an absent key appends the entry at the end of the record. -/
theorem setField_eq_append (fs : List (String × JValue)) (k : String) (v : JValue)
    (h : k ∉ fs.map Prod.fst) : setField fs k v = fs ++ [(k, v)] := by
  induction fs with
  | nil => rfl
  | cons kv rest ih =>
    obtain ⟨a, b⟩ := kv
    simp only [List.map_cons, List.mem_cons] at h
    push_neg at h
    simp [setField, Ne.symm h.1, ih h.2]

/-- `optOr x none = x`. -/
theorem optOr_none {α : Type} (a : Option α) : optOr a none = a := by
  cases a <;> rfl

/-- Reading a merge `objAssign base src` whose source has no duplicate keys:
the source wins on every key it holds, the base answers otherwise. -/
theorem lookupField_objAssign (src : List (String × JValue)) (base : List (String × JValue))
    (hsrc : (src.map Prod.fst).Nodup) (k : String) :
    lookupField (objAssign base src) k = optOr (lookupField src k) (lookupField base k) := by
  induction src generalizing base with
  | nil => simp [objAssign, lookupField, optOr]
  | cons kv rest ih =>
    obtain ⟨k0, v0⟩ := kv
    simp only [List.map_cons, List.nodup_cons] at hsrc
    have step : objAssign base ((k0, v0) :: rest) = objAssign (setField base k0 v0) rest := rfl
    rw [step, ih (setField base k0 v0) hsrc.2]
    by_cases h : k = k0
    · subst h
      have hnone : lookupField rest k = none :=
        lookupField_eq_none_of_not_mem rest k hsrc.1
      simp [hnone, lookupField, optOr, lookupField_setField]
    · simp [lookupField, Ne.symm h, lookupField_setField, h]

/-! ### Claim theorems -/

/-- C10: for every template and every recognised field, the zero-argument
(reader) branch of the field's accessor returns the currently stored value
(`none` models `undefined` when nothing was ever stored) without throwing and
with the template state unchanged. -/
theorem c10_getters_pure (t : Template) :
    t.passTypeIdentifier none = .ok (t, lookupField t.fields "passTypeIdentifier")
    ∧ t.teamIdentifier none = .ok (t, lookupField t.fields "teamIdentifier")
    ∧ t.backgroundColor none = .ok (t, lookupField t.fields "backgroundColor")
    ∧ t.foregroundColor none = .ok (t, lookupField t.fields "foregroundColor")
    ∧ t.labelColor none = .ok (t, lookupField t.fields "labelColor")
    ∧ t.logoText none = .ok (t, lookupField t.fields "logoText")
    ∧ t.organizationName none = .ok (t, lookupField t.fields "organizationName")
    ∧ t.groupingIdentifier none = .ok (t, lookupField t.fields "groupingIdentifier")
    ∧ t.suppressStripShine none = .ok (t, lookupField t.fields "suppressStripShine")
    ∧ t.webServiceURL none = .ok (t, lookupField t.fields "webServiceURL") :=
  ⟨rfl, rfl, rfl, rfl, rfl, rfl, rfl, rfl, rfl, rfl⟩

/-- C8: construction with a style tag outside the registry fails with the
configuration error and produces nothing; construction with a registered style
and no initial fields yields a template with that style, an empty field
mapping, `keysPath` initialised to the string `'keys'`, `password` unset and
an empty image collection. -/
theorem c8_construct (style : String) (fs : List (String × JValue)) :
    (style ∉ PASS_STYLES →
      Template.construct style fs = .error (.error ("Unsupported pass style " ++ style)))
    ∧ (style ∈ PASS_STYLES →
      Template.construct style [] =
        .ok { style := style, fields := [], keysPath := some (.str "keys"),
              password := none, images := some { files := [] } }) := by
  constructor
  · intro h
    simp [Template.construct, h]
  · intro h
    simp [Template.construct, h, Template.applyEntries]

/-- Witness for C8 at the concrete styles `madeUp` (rejected) and
`boardingPass` (accepted with the documented initial state). -/
theorem c8_construct_witness :
    Template.construct "madeUp" [] = .error (.error "Unsupported pass style madeUp")
    ∧ Template.construct "boardingPass" [] =
        .ok { style := "boardingPass", fields := [], keysPath := some (.str "keys"),
              password := none, images := some { files := [] } } :=
  ⟨(c8_construct "madeUp" []).1 (by decide), (c8_construct "boardingPass" []).2 (by decide)⟩

/-- C2: `createPass` hands the template itself and its shared image reference
to the `Pass` producer unchanged, and the produced field mapping is the
shallow merge of the template's fields with the overrides, override winning on
every colliding key; the template's own fields (readable through
`(t.createPass m).template.fields`) are exactly the fields it had. -/
theorem c2_createPass_merge (t : Template) (m : List (String × JValue))
    (ht : (t.fields.map Prod.fst).Nodup) (hm : (m.map Prod.fst).Nodup) :
    (∀ k, lookupField (t.createPass m).fields k =
      optOr (lookupField m k) (lookupField t.fields k))
    ∧ (t.createPass m).images = t.images
    ∧ (t.createPass m).template = t := by
  refine ⟨?_, rfl, rfl⟩
  intro k
  show lookupField (objAssign (objAssign [] t.fields) m) k = _
  rw [lookupField_objAssign m _ hm k, lookupField_objAssign t.fields [] ht k]
  simp [lookupField, optOr_none]

/-- Witness for C2, the example of the spec: a template owning
`{logoText: "X"}` merged with the override `{foo: "bar"}` produces
`{logoText: "X", foo: "bar"}`, shares the image reference, and the template's
own fields are untouched. -/
theorem c2_createPass_merge_witness :
    (Template.createPass
        { style := "coupon", fields := [("logoText", .str "X")],
          keysPath := some (.str "keys"), password := none,
          images := some { files := [] } }
        [("foo", .str "bar")]).fields
      = [("logoText", JValue.str "X"), ("foo", JValue.str "bar")]
    ∧ lookupField (Template.createPass
        { style := "coupon", fields := [("logoText", .str "X")],
          keysPath := some (.str "keys"), password := none,
          images := some { files := [] } }
        [("foo", .str "bar")]).fields "logoText"
      = optOr (lookupField [("foo", JValue.str "bar")] "logoText")
          (lookupField [("logoText", JValue.str "X")] "logoText")
    ∧ (Template.createPass
        { style := "coupon", fields := [("logoText", .str "X")],
          keysPath := some (.str "keys"), password := none,
          images := some { files := [] } }
        [("foo", .str "bar")]).images = some { files := [] } := by
  refine ⟨by decide, ?_, by decide⟩
  exact (c2_createPass_merge _ [("foo", .str "bar")] (by decide) (by decide)).1 "logoText"

/-- C5: the `webServiceURL` setter fails (leaving the template untouched) on
every input that does not parse as an absolute URL and on every parsed URL
whose protocol is not exactly `https:`; on every `https` URL it succeeds and
the value a subsequent zero-argument call returns is the normalised
serialisation of the parsed URL. -/
theorem c5_webServiceURL (t : Template) (s : String) :
    (parseURL s = none →
      t.webServiceURL (some (.str s)) = .error (.typeError ("Invalid URL: " ++ s), t))
    ∧ (∀ u, parseURL s = some u → URLModel.protocol u ≠ "https:" →
      t.webServiceURL (some (.str s)) = .error (.error "webServiceURL must be on HTTPS!", t))
    ∧ (∀ u, parseURL s = some u → URLModel.protocol u = "https:" →
      t.webServiceURL (some (.str s))
        = .ok (t.storeField "webServiceURL" (.str (URLModel.toString u)), none)
      ∧ (t.storeField "webServiceURL" (.str (URLModel.toString u))).webServiceURL none
        = .ok (t.storeField "webServiceURL" (.str (URLModel.toString u)),
            some (.str (URLModel.toString u)))) := by
  refine ⟨?_, ?_, ?_⟩
  · intro h
    simp [Template.webServiceURL, jsToString, h]
  · intro u hu hproto
    simp [Template.webServiceURL, jsToString, hu, hproto]
  · intro u hu hproto
    constructor
    · simp [Template.webServiceURL, jsToString, hu, hproto]
    · simp [Template.webServiceURL, Template.getField, Template.storeField,
        lookupField_setField]

/-- Witness for C5 at the inputs of the spec: `http://example.com` is rejected
for its scheme, `not-a-url` for failing to parse, and `https://example.com` is
accepted with the getter returning the normalised `https://example.com/`. -/
theorem c5_webServiceURL_witness :
    (Template.webServiceURL
        { style := "coupon", fields := [], keysPath := some (.str "keys"),
          password := none, images := some { files := [] } }
        (some (.str "http://example.com"))
      = .error (.error "webServiceURL must be on HTTPS!",
          { style := "coupon", fields := [], keysPath := some (.str "keys"),
            password := none, images := some { files := [] } }))
    ∧ (Template.webServiceURL
        { style := "coupon", fields := [], keysPath := some (.str "keys"),
          password := none, images := some { files := [] } }
        (some (.str "not-a-url"))
      = .error (.typeError "Invalid URL: not-a-url",
          { style := "coupon", fields := [], keysPath := some (.str "keys"),
            password := none, images := some { files := [] } }))
    ∧ (Template.webServiceURL
        { style := "coupon", fields := [], keysPath := some (.str "keys"),
          password := none, images := some { files := [] } }
        (some (.str "https://example.com"))
      = .ok ({ style := "coupon",
               fields := [("webServiceURL", JValue.str "https://example.com/")],
               keysPath := some (.str "keys"), password := none,
               images := some { files := [] } }, none)) := by
  refine ⟨?_, ?_, ?_⟩
  · exact (c5_webServiceURL _ "http://example.com").2.1
      { scheme := "http", host := "example.com", path := "/" } (by decide) (by decide)
  · exact (c5_webServiceURL _ "not-a-url").1 (by decide)
  · exact ((c5_webServiceURL _ "https://example.com").2.2
      { scheme := "https", host := "example.com", path := "/" } (by decide) (by decide)).1

/-- C6: style detection selects exactly the first registry entry, in registry
order, whose name is a top-level key of the parsed definition, and when no
registry entry is a key, `load` (with steps 1 and 2 succeeding) fails with the
unknown-style error. -/
theorem c6_style_detection (j : List (String × JValue)) :
    (∀ ty, detectStyle j = some ty ↔
      hasKey j ty = true
        ∧ ∃ pre post, PASS_STYLES = pre ++ ty :: post
            ∧ ∀ ty' ∈ pre, hasKey j ty' = false)
    ∧ (detectStyle j = none ↔ ∀ ty ∈ PASS_STYLES, hasKey j ty = false)
    ∧ (∀ env folderPath pw st, env.folderStat = .ok st → st.isDir = true →
        env.passJson = .ok j → detectStyle j = none →
        Template.load env folderPath pw = .error (.error "Unknown pass style!")) := by
  refine ⟨?_, ?_, ?_⟩
  · intro ty
    rw [detectStyle, List.find?_eq_some]
    constructor
    · rintro ⟨hp, pre, post, hsplit, hpre⟩
      exact ⟨hp, pre, post, hsplit, fun ty' h => by simpa using hpre ty' h⟩
    · rintro ⟨hp, pre, post, hsplit, hpre⟩
      exact ⟨hp, pre, post, hsplit, fun ty' h => by simp [hpre ty' h]⟩
  · rw [detectStyle, List.find?_eq_none]
    constructor
    · intro h ty hty
      have := h ty hty
      simpa using this
    · intro h ty hty
      simp [h ty hty]
  · intro env folderPath pw st h1 h2 h3 h4
    simp [Template.load, h1, h2, h3, h4]

/-- Witness for C6: on a definition whose only registry key is `coupon`,
detection picks `coupon` with `boardingPass` the sole registry entry scanned
before it, and `load` of a definition with no registry key fails with the
unknown-style error. -/
theorem c6_style_detection_witness :
    (hasKey [("storeCard", JValue.jobj 0), ("coupon", JValue.jobj 1)] "coupon" = true
      ∧ ∃ pre post, PASS_STYLES = pre ++ "coupon" :: post
          ∧ ∀ ty' ∈ pre,
              hasKey [("storeCard", JValue.jobj 0), ("coupon", JValue.jobj 1)] ty' = false)
    ∧ Template.load
        { folderStat := .ok { isDir := true, isFile := false }
          passJson := .ok [("somethingElse", JValue.str "x")]
          imagesLoad := .ok { files := [] }
          keyStat := fun _ => .error (.error "ENOENT") } "bundle" none
      = .error (.error "Unknown pass style!") := by
  constructor
  · exact (c6_style_detection _).1 "coupon" |>.mp (by decide)
  · exact (c6_style_detection [("somethingElse", JValue.str "x")]).2.2
      _ "bundle" none { isDir := true, isFile := false } rfl rfl rfl (by decide)

/-- C3 counterexample: a bundle whose definition is the single-key object
`{"eventTicket": {}}` passes every one of steps 1 to 5 (directory check,
parse, style detection — shown here — construction and image loading), yet
`load` fails: the derivation of the signing-key filename dereferences the
absent `passTypeIdentifier` before the `try`, so the resulting `TypeError` is
not swallowed and no template is returned, contradicting the claim that after
steps 1 to 5 the key-probe step never causes the load to fail. -/
theorem c3_counterexample :
    detectStyle [("eventTicket", JValue.jobj 0)] = some "eventTicket"
    ∧ Template.construct "eventTicket" [("eventTicket", JValue.jobj 0)]
        = .ok { style := "eventTicket", fields := [], keysPath := some (.str "keys"),
                password := none, images := some { files := [] } }
    ∧ Template.load
        { folderStat := .ok { isDir := true, isFile := false }
          passJson := .ok [("eventTicket", JValue.jobj 0)]
          imagesLoad := .ok { files := [] }
          keyStat := fun _ => .error (.error "ENOENT") } "bundle" none
      = .error (.typeError "Cannot read properties of undefined") :=
  ⟨rfl, rfl, rfl⟩

/-- C3 as amended: steps 1 to 5 are fatal — a folder-stat rejection, a
non-directory path, a definition read/parse rejection, a construction throw or
an image-load rejection each abort `load` with that error — and whenever steps
1 to 5 succeed and additionally the definition's `passTypeIdentifier` is a
string, the key-probe step never causes the load to fail: whatever the probe
of the derived key filename returns (any error, or any stat result), `load`
returns a fully populated template. -/
theorem c3_load_pipeline (env : LoadEnv) (folderPath : String) (pw : Option JValue) :
    (∀ e, env.folderStat = .error e → Template.load env folderPath pw = .error e)
    ∧ (∀ st, env.folderStat = .ok st → st.isDir = false →
        Template.load env folderPath pw
          = .error (.error ("Path " ++ folderPath ++ " must be a directory!")))
    ∧ (∀ st e, env.folderStat = .ok st → st.isDir = true → env.passJson = .error e →
        Template.load env folderPath pw = .error e)
    ∧ (∀ st j ty e, env.folderStat = .ok st → st.isDir = true → env.passJson = .ok j →
        detectStyle j = some ty → Template.construct ty j = .error e →
        Template.load env folderPath pw = .error e)
    ∧ (∀ st j ty t e, env.folderStat = .ok st → st.isDir = true → env.passJson = .ok j →
        detectStyle j = some ty → Template.construct ty j = .ok t →
        env.imagesLoad = .error e → Template.load env folderPath pw = .error e)
    ∧ (∀ st j ty t imgs ident, env.folderStat = .ok st → st.isDir = true →
        env.passJson = .ok j → detectStyle j = some ty → Template.construct ty j = .ok t →
        env.imagesLoad = .ok imgs →
        lookupField j "passTypeIdentifier" = some (.str ident) →
        ∃ t', Template.load env folderPath pw = .ok t') := by
  refine ⟨?_, ?_, ?_, ?_, ?_, ?_⟩
  · intro e h1
    simp [Template.load, h1]
  · intro st h1 h2
    simp [Template.load, h1, h2]
  · intro st e h1 h2 h3
    simp [Template.load, h1, h2, h3]
  · intro st j ty e h1 h2 h3 h4 h5
    simp [Template.load, h1, h2, h3, h4, h5]
  · intro st j ty t e h1 h2 h3 h4 h5 h6
    simp [Template.load, h1, h2, h3, h4, h5, h6]
  · intro st j ty t imgs ident h1 h2 h3 h4 h5 h6 h7
    simp [Template.load, h1, h2, h3, h4, h5, h6, h7]
    cases hk : env.keyStat (stripPassDot ident ++ ".pem") with
    | error e => exact ⟨{ t with images := some imgs }, by simp⟩
    | ok ks =>
      cases hf : ks.isFile with
      | true =>
        exact ⟨Template.keys { t with images := some imgs } (some (.str folderPath)) pw,
          by simp [hf]⟩
      | false => exact ⟨{ t with images := some imgs }, by simp [hf]⟩

/-- Witness for C3 as amended: a well-formed event-ticket bundle whose
definition carries a string `passTypeIdentifier` loads successfully even
though every probe of the key filename is rejected. -/
theorem c3_load_pipeline_witness :
    ∃ t', Template.load
      { folderStat := .ok { isDir := true, isFile := false }
        passJson := .ok [("eventTicket", JValue.jobj 0),
                         ("passTypeIdentifier", JValue.str "pass.com.example")]
        imagesLoad := .ok { files := [] }
        keyStat := fun _ => .error (.error "ENOENT") } "bundle" none = .ok t' :=
  (c3_load_pipeline _ "bundle" none).2.2.2.2.2 { isDir := true, isFile := false }
    [("eventTicket", JValue.jobj 0), ("passTypeIdentifier", JValue.str "pass.com.example")]
    "eventTicket"
    { style := "eventTicket",
      fields := [("passTypeIdentifier", JValue.str "pass.com.example")],
      keysPath := some (.str "keys"), password := none, images := some { files := [] } }
    { files := [] } "pass.com.example" rfl rfl rfl rfl rfl rfl rfl

/-- C7 counterexample: on a well-formed `eventTicket` bundle, `load` succeeds
with style `eventTicket`, but the returned field mapping is not the
definition's content, on two counts shown on two bundles.  First, the style
key `"eventTicket"` (and every other key without a same-named accessor) is
dropped by the constructor's dispatch, so only the recognised
`passTypeIdentifier` entry survives.  Second, even restricted to recognised
keys the values need not coincide: an accepted `webServiceURL` value is
stored in normalised form (`https://example.com` becomes
`https://example.com/`), so the stored mapping also differs from the
definition's content restricted to the recognised field names. -/
theorem c7_counterexample :
    Template.load
      { folderStat := .ok { isDir := true, isFile := false }
        passJson := .ok [("eventTicket", JValue.jobj 0),
                         ("passTypeIdentifier", JValue.str "pass.com.example")]
        imagesLoad := .ok { files := [] }
        keyStat := fun _ => .error (.error "ENOENT") } "bundle" none
      = .ok { style := "eventTicket",
              fields := [("passTypeIdentifier", JValue.str "pass.com.example")],
              keysPath := some (.str "keys"), password := none,
              images := some { files := [] } }
    ∧ ([("passTypeIdentifier", JValue.str "pass.com.example")] :
        List (String × JValue))
      ≠ [("eventTicket", JValue.jobj 0),
         ("passTypeIdentifier", JValue.str "pass.com.example")]
    ∧ Template.load
      { folderStat := .ok { isDir := true, isFile := false }
        passJson := .ok [("eventTicket", JValue.jobj 0),
                         ("passTypeIdentifier", JValue.str "pass.com.example"),
                         ("webServiceURL", JValue.str "https://example.com")]
        imagesLoad := .ok { files := [] }
        keyStat := fun _ => .error (.error "ENOENT") } "bundle" none
      = .ok { style := "eventTicket",
              fields := [("passTypeIdentifier", JValue.str "pass.com.example"),
                         ("webServiceURL", JValue.str "https://example.com/")],
              keysPath := some (.str "keys"), password := none,
              images := some { files := [] } }
    ∧ ([("passTypeIdentifier", JValue.str "pass.com.example"),
        ("webServiceURL", JValue.str "https://example.com/")] :
        List (String × JValue))
      ≠ List.filter (fun kv => kv.1 ∈ fieldNames)
          [("eventTicket", JValue.jobj 0),
           ("passTypeIdentifier", JValue.str "pass.com.example"),
           ("webServiceURL", JValue.str "https://example.com")] :=
  ⟨rfl, by decide, rfl, by decide⟩


/-! ### Invariant lemmas (claim C1) -/

/-- The empty field mapping satisfies the field invariant. -/
theorem fieldsInv_nil : FieldsInv [] := by
  refine ⟨?_, ?_, ?_, ?_⟩ <;> intro v h <;> simp [lookupField] at h

/-- Storing under a key other than the four validated ones preserves the
field invariant. -/
theorem fieldsInv_setField_other (fs : List (String × JValue)) (k : String) (v : JValue)
    (hInv : FieldsInv fs)
    (h1 : ("foregroundColor" : String) ≠ k) (h2 : ("labelColor" : String) ≠ k)
    (h3 : ("suppressStripShine" : String) ≠ k) (h4 : ("webServiceURL" : String) ≠ k) :
    FieldsInv (setField fs k v) := by
  obtain ⟨i1, i2, i3, i4⟩ := hInv
  refine ⟨?_, ?_, ?_, ?_⟩
  · intro w hw
    rw [lookupField_setField, if_neg h1] at hw
    exact i1 w hw
  · intro w hw
    rw [lookupField_setField, if_neg h2] at hw
    exact i2 w hw
  · intro w hw
    rw [lookupField_setField, if_neg h3] at hw
    exact i3 w hw
  · intro w hw
    rw [lookupField_setField, if_neg h4] at hw
    exact i4 w hw


/-- Storing a validator-accepted value under `foregroundColor` preserves the field
invariant. -/
theorem fieldsInv_setField_fore (fs : List (String × JValue)) (v : JValue)
    (hInv : FieldsInv fs) (hv : ColorOk v) :
    FieldsInv (setField fs "foregroundColor" v) := by
  obtain ⟨i1, i2, i3, i4⟩ := hInv
  refine ⟨?_, ?_, ?_, ?_⟩
  · intro w hw
    rw [lookupField_setField, if_pos rfl] at hw
    cases hw
    exact hv
  · intro w hw
    rw [lookupField_setField, if_neg (by decide)] at hw
    exact i2 w hw
  · intro w hw
    rw [lookupField_setField, if_neg (by decide)] at hw
    exact i3 w hw
  · intro w hw
    rw [lookupField_setField, if_neg (by decide)] at hw
    exact i4 w hw


/-- Storing a validator-accepted value under `labelColor` preserves the field
invariant. -/
theorem fieldsInv_setField_label (fs : List (String × JValue)) (v : JValue)
    (hInv : FieldsInv fs) (hv : ColorOk v) :
    FieldsInv (setField fs "labelColor" v) := by
  obtain ⟨i1, i2, i3, i4⟩ := hInv
  refine ⟨?_, ?_, ?_, ?_⟩
  · intro w hw
    rw [lookupField_setField, if_neg (by decide)] at hw
    exact i1 w hw
  · intro w hw
    rw [lookupField_setField, if_pos rfl] at hw
    cases hw
    exact hv
  · intro w hw
    rw [lookupField_setField, if_neg (by decide)] at hw
    exact i3 w hw
  · intro w hw
    rw [lookupField_setField, if_neg (by decide)] at hw
    exact i4 w hw


/-- Storing a validator-accepted value under `suppressStripShine` preserves the field
invariant. -/
theorem fieldsInv_setField_shine (fs : List (String × JValue)) (v : JValue)
    (hInv : FieldsInv fs) (hv : BoolOk v) :
    FieldsInv (setField fs "suppressStripShine" v) := by
  obtain ⟨i1, i2, i3, i4⟩ := hInv
  refine ⟨?_, ?_, ?_, ?_⟩
  · intro w hw
    rw [lookupField_setField, if_neg (by decide)] at hw
    exact i1 w hw
  · intro w hw
    rw [lookupField_setField, if_neg (by decide)] at hw
    exact i2 w hw
  · intro w hw
    rw [lookupField_setField, if_pos rfl] at hw
    cases hw
    exact hv
  · intro w hw
    rw [lookupField_setField, if_neg (by decide)] at hw
    exact i4 w hw


/-- Storing a validator-accepted value under `webServiceURL` preserves the field
invariant. -/
theorem fieldsInv_setField_url (fs : List (String × JValue)) (v : JValue)
    (hInv : FieldsInv fs) (hv : HttpsOk v) :
    FieldsInv (setField fs "webServiceURL" v) := by
  obtain ⟨i1, i2, i3, i4⟩ := hInv
  refine ⟨?_, ?_, ?_, ?_⟩
  · intro w hw
    rw [lookupField_setField, if_neg (by decide)] at hw
    exact i1 w hw
  · intro w hw
    rw [lookupField_setField, if_neg (by decide)] at hw
    exact i2 w hw
  · intro w hw
    rw [lookupField_setField, if_neg (by decide)] at hw
    exact i3 w hw
  · intro w hw
    rw [lookupField_setField, if_pos rfl] at hw
    cases hw
    exact hv


/-- `Template.keys` never touches the field mapping. -/
theorem keys_fields (t : Template) (p pw : Option JValue) :
    (t.keys p pw).fields = t.fields := by
  unfold Template.keys
  cases p <;> cases pw <;> simp <;> split_ifs <;> rfl

/-- Both halves of the dispatch contract in one pass over the method table:
a successful dispatch preserves the field invariant, and a throwing dispatch
carries out exactly the pre-call state. -/
theorem applyField_cases (t : Template) (k : String) (v : JValue) :
    (∀ t', t.applyField k v = .ok t' → FieldsInv t.fields → FieldsInv t'.fields)
    ∧ (∀ e t2, t.applyField k v = .error (e, t2) → t2 = t) := by
  unfold Template.applyField

  by_cases h1 : k = "passTypeIdentifier"
  · rw [if_pos h1]
    constructor
    · intro t' h hInv
      simp [Template.passTypeIdentifier, Except.map] at h
      subst h
      exact fieldsInv_setField_other _ _ _ hInv (by decide) (by decide) (by decide) (by decide)
    · intro e t2 h
      simp [Template.passTypeIdentifier, Except.map] at h
  · rw [if_neg h1]
    by_cases h2 : k = "teamIdentifier"
    · rw [if_pos h2]
      constructor
      · intro t' h hInv
        simp [Template.teamIdentifier, Except.map] at h
        subst h
        exact fieldsInv_setField_other _ _ _ hInv (by decide) (by decide) (by decide) (by decide)
      · intro e t2 h
        simp [Template.teamIdentifier, Except.map] at h
    · rw [if_neg h2]
      by_cases h3 : k = "backgroundColor"
      · rw [if_pos h3]
        constructor
        · intro t' h hInv
          simp [Template.backgroundColor, Except.map] at h
          subst h
          exact fieldsInv_setField_other _ _ _ hInv (by decide) (by decide) (by decide) (by decide)
        · intro e t2 h
          simp [Template.backgroundColor, Except.map] at h
      · rw [if_neg h3]
        by_cases h4 : k = "foregroundColor"
        · rw [if_pos h4]
          constructor
          · intro t' h hInv
            cases hval : Template.validateColorValue (jsToString v) with
            | error e0 => simp [Template.foregroundColor, hval, Except.map] at h
            | ok u =>
              simp [Template.foregroundColor, hval, Except.map] at h
              subst h
              exact fieldsInv_setField_fore _ _ hInv (by cases u; exact hval)
          · intro e t2 h
            cases hval : Template.validateColorValue (jsToString v) with
            | error e0 =>
              simp [Template.foregroundColor, hval, Except.map] at h
              exact h.2.symm
            | ok u => simp [Template.foregroundColor, hval, Except.map] at h
        · rw [if_neg h4]
          by_cases h5 : k = "labelColor"
          · rw [if_pos h5]
            constructor
            · intro t' h hInv
              cases hval : Template.validateColorValue (jsToString v) with
              | error e0 => simp [Template.labelColor, hval, Except.map] at h
              | ok u =>
                simp [Template.labelColor, hval, Except.map] at h
                subst h
                exact fieldsInv_setField_label _ _ hInv (by cases u; exact hval)
            · intro e t2 h
              cases hval : Template.validateColorValue (jsToString v) with
              | error e0 =>
                simp [Template.labelColor, hval, Except.map] at h
                exact h.2.symm
              | ok u => simp [Template.labelColor, hval, Except.map] at h
          · rw [if_neg h5]
            by_cases h6 : k = "logoText"
            · rw [if_pos h6]
              constructor
              · intro t' h hInv
                simp [Template.logoText, Except.map] at h
                subst h
                exact fieldsInv_setField_other _ _ _ hInv (by decide) (by decide) (by decide) (by decide)
              · intro e t2 h
                simp [Template.logoText, Except.map] at h
            · rw [if_neg h6]
              by_cases h7 : k = "organizationName"
              · rw [if_pos h7]
                constructor
                · intro t' h hInv
                  simp [Template.organizationName, Except.map] at h
                  subst h
                  exact fieldsInv_setField_other _ _ _ hInv (by decide) (by decide) (by decide) (by decide)
                · intro e t2 h
                  simp [Template.organizationName, Except.map] at h
              · rw [if_neg h7]
                by_cases h8 : k = "groupingIdentifier"
                · rw [if_pos h8]
                  constructor
                  · intro t' h hInv
                    simp [Template.groupingIdentifier, Except.map] at h
                    subst h
                    exact fieldsInv_setField_other _ _ _ hInv (by decide) (by decide) (by decide) (by decide)
                  · intro e t2 h
                    simp [Template.groupingIdentifier, Except.map] at h
                · rw [if_neg h8]
                  by_cases h9 : k = "suppressStripShine"
                  · rw [if_pos h9]
                    constructor
                    · intro t' h hInv
                      cases v with
                      | boolean b =>
                        simp [Template.suppressStripShine, Except.map] at h
                        subst h
                        exact fieldsInv_setField_shine _ _ hInv ⟨b, rfl⟩
                      | str s => simp [Template.suppressStripShine, Except.map] at h
                      | num n => simp [Template.suppressStripShine, Except.map] at h
                      | jobj g => simp [Template.suppressStripShine, Except.map] at h
                    · intro e t2 h
                      cases v with
                      | boolean b => simp [Template.suppressStripShine, Except.map] at h
                      | str s =>
                        simp [Template.suppressStripShine, Except.map] at h
                        exact h.2.symm
                      | num n =>
                        simp [Template.suppressStripShine, Except.map] at h
                        exact h.2.symm
                      | jobj g =>
                        simp [Template.suppressStripShine, Except.map] at h
                        exact h.2.symm
                  · rw [if_neg h9]
                    by_cases h10 : k = "webServiceURL"
                    · rw [if_pos h10]
                      constructor
                      · intro t' h hInv
                        cases hurl : parseURL (jsToString v) with
                        | none => simp [Template.webServiceURL, hurl, Except.map] at h
                        | some u =>
                          by_cases hproto : URLModel.protocol u = "https:"
                          · simp [Template.webServiceURL, hurl, hproto, Except.map] at h
                            subst h
                            exact fieldsInv_setField_url _ _ hInv ⟨u, hproto, rfl⟩
                          · simp [Template.webServiceURL, hurl, hproto, Except.map] at h
                      · intro e t2 h
                        cases hurl : parseURL (jsToString v) with
                        | none =>
                          simp [Template.webServiceURL, hurl, Except.map] at h
                          exact h.2.symm
                        | some u =>
                          by_cases hproto : URLModel.protocol u = "https:"
                          · simp [Template.webServiceURL, hurl, hproto, Except.map] at h
                          · simp [Template.webServiceURL, hurl, hproto, Except.map] at h
                            exact h.2.symm
                    · rw [if_neg h10]
                      by_cases h11 : k = "keys"
                      · rw [if_pos h11]
                        constructor
                        · intro t' h hInv
                          simp only [Except.ok.injEq] at h
                          subst h
                          rw [keys_fields]
                          exact hInv
                        · intro e t2 h
                          simp at h
                      · rw [if_neg h11]
                        by_cases h12 : k = "createPass"
                        · rw [if_pos h12]
                          constructor
                          · intro t' h hInv
                            simp only [Except.ok.injEq] at h
                            subst h
                            exact hInv
                          · intro e t2 h
                            simp at h
                        · rw [if_neg h12]
                          by_cases h13 : k = "constructor"
                          · rw [if_pos h13]
                            constructor
                            · intro t' h hInv
                              simp at h
                            · intro e t2 h
                              simp only [Except.error.injEq, Prod.mk.injEq] at h
                              exact h.2.symm
                          · rw [if_neg h13]
                            by_cases h14 : k = "__defineGetter__"
                            · rw [if_pos h14]
                              constructor
                              · intro t' h hInv
                                simp at h
                              · intro e t2 h
                                simp only [Except.error.injEq, Prod.mk.injEq] at h
                                exact h.2.symm
                            · rw [if_neg h14]
                              by_cases h15 : k = "__defineSetter__"
                              · rw [if_pos h15]
                                constructor
                                · intro t' h hInv
                                  simp at h
                                · intro e t2 h
                                  simp only [Except.error.injEq, Prod.mk.injEq] at h
                                  exact h.2.symm
                              · rw [if_neg h15]
                                constructor
                                · intro t2 h hInv
                                  simp only [Except.ok.injEq] at h
                                  subst h
                                  exact hInv
                                · intro e t2 h
                                  simp at h


/-- The constructor's field-application loop preserves the field invariant. -/
theorem applyEntries_fieldsInv (entries : List (String × JValue)) :
    ∀ t t' : Template, Template.applyEntries t entries = .ok t' →
      FieldsInv t.fields → FieldsInv t'.fields := by
  induction entries with
  | nil =>
    intro t t' h hInv
    cases h
    exact hInv
  | cons kv rest ih =>
    intro t t' h hInv
    obtain ⟨k, v⟩ := kv
    simp only [Template.applyEntries] at h
    cases happ : t.applyField k v with
    | error p => rw [happ] at h; cases h
    | ok t1 =>
      rw [happ] at h
      exact ih t1 t' h ((applyField_cases t k v).1 t1 happ hInv)

/-- Construction establishes the field invariant. -/
theorem construct_fieldsInv (style : String) (fs : List (String × JValue)) (t : Template)
    (h : Template.construct style fs = .ok t) : FieldsInv t.fields := by
  unfold Template.construct at h
  by_cases hs : PASS_STYLES.contains style = true
  · rw [if_pos hs] at h
    cases happ : Template.applyEntries
        { style := style, fields := [], keysPath := none, password := none, images := none }
        fs with
    | error e => rw [happ] at h; cases h
    | ok t1 =>
      rw [happ] at h
      cases h
      exact applyEntries_fieldsInv fs _ t1 happ fieldsInv_nil
  · rw [if_neg hs] at h
    cases h

/-- Loading returns templates satisfying the field invariant. -/
theorem load_fieldsInv (env : LoadEnv) (fp : String) (pw : Option JValue) (t : Template)
    (h : Template.load env fp pw = .ok t) : FieldsInv t.fields := by
  unfold Template.load at h
  cases hstat : env.folderStat with
  | error e => simp [hstat] at h
  | ok st =>
    by_cases hdir : st.isDir = false
    · simp [hstat, hdir] at h
    · simp only [hstat] at h
      rw [if_neg hdir] at h
      cases hjson : env.passJson with
      | error e => simp [hjson] at h
      | ok j =>
        simp only [hjson] at h
        cases hdet : detectStyle j with
        | none => simp [hdet] at h
        | some ty =>
          simp only [hdet] at h
          cases hcon : Template.construct ty j with
          | error e => simp [hcon] at h
          | ok t0 =>
            simp only [hcon] at h
            have hinv0 : FieldsInv t0.fields := construct_fieldsInv _ _ _ hcon
            cases himg : env.imagesLoad with
            | error e => simp [himg] at h
            | ok imgs =>
              simp only [himg] at h
              cases hlook : lookupField j "passTypeIdentifier" with
              | none => simp [hlook] at h
              | some tv =>
                simp only [hlook] at h
                cases tv with
                | str ident =>
                  cases hk : env.keyStat (stripPassDot ident ++ ".pem") with
                  | error e =>
                    simp only [hk, Except.ok.injEq] at h
                    subst h
                    exact hinv0
                  | ok ks =>
                    simp only [hk] at h
                    by_cases hf : ks.isFile = true
                    · rw [if_pos hf] at h
                      simp only [Except.ok.injEq] at h
                      subst h
                      rw [keys_fields]
                      exact hinv0
                    · rw [if_neg hf] at h
                      simp only [Except.ok.injEq] at h
                      subst h
                      exact hinv0
                | boolean b => simp [hlook] at h
                | num n => simp [hlook] at h
                | jobj g => simp [hlook] at h

/-- C1: the template invariant.  (i) Whenever a dispatched field-setter call
succeeds on a template whose stored fields all passed their validators, the
resulting fields again all passed their validators — in particular a present
`webServiceURL` always has scheme exactly `https`; (ii) whenever a setter
dispatch throws, the template state carried by the exception is exactly the
pre-call state, so a failing setter mutates nothing (all-or-nothing);
(iii) construction only ever produces templates satisfying the invariant, and
(iv) so does loading. -/
theorem c1_template_invariant :
    (∀ (t : Template) (k : String) (v : JValue) (t' : Template),
      t.applyField k v = .ok t' → FieldsInv t.fields → FieldsInv t'.fields)
    ∧ (∀ (t : Template) (k : String) (v : JValue) (e : JsError) (t2 : Template),
      t.applyField k v = .error (e, t2) → t2 = t)
    ∧ (∀ (style : String) (fs : List (String × JValue)) (t : Template),
      Template.construct style fs = .ok t → FieldsInv t.fields)
    ∧ (∀ (env : LoadEnv) (fp : String) (pw : Option JValue) (t : Template),
      Template.load env fp pw = .ok t → FieldsInv t.fields) :=
  ⟨fun t k v => (applyField_cases t k v).1,
   fun t k v => (applyField_cases t k v).2,
   construct_fieldsInv, load_fieldsInv⟩

/-- Witness for C1: a concrete construction with a valid color field yields a
field mapping satisfying the invariant. -/
theorem c1_template_invariant_witness :
    FieldsInv [("foregroundColor", JValue.str "rgb(1, 2, 3)")] :=
  c1_template_invariant.2.2.1 "coupon" [("foregroundColor", JValue.str "rgb(1, 2, 3)")]
    { style := "coupon", fields := [("foregroundColor", JValue.str "rgb(1, 2, 3)")],
      keysPath := some (.str "keys"), password := none, images := some { files := [] } }
    rfl

/-! ### Scanner lemmas (claim C4) -/

/-- A run of `p`-characters followed by input whose head fails `p` is exactly
what `takeWhile`/`dropWhile` split off. -/
theorem takeWhile_run_append (p : Char → Bool) (w rest : List Char)
    (hw : ∀ c ∈ w, p c = true)
    (hr : ∀ c, rest.head? = some c → p c = false) :
    (w ++ rest).takeWhile p = w ∧ (w ++ rest).dropWhile p = rest := by
  induction w with
  | nil =>
    simp only [List.nil_append]
    cases rest with
    | nil => exact ⟨rfl, rfl⟩
    | cons c cs =>
      have hc : p c = false := hr c rfl
      constructor
      · exact List.takeWhile_cons_of_neg (by simp [hc])
      · exact List.dropWhile_cons_of_neg (by simp [hc])
  | cons a w ih =>
    have ha : p a = true := hw a (by simp)
    have ihh := ih (fun c hc => hw c (by simp [hc]))
    constructor
    · rw [List.cons_append, List.takeWhile_cons_of_pos (by simp [ha]), ihh.1]
    · rw [List.cons_append, List.dropWhile_cons_of_pos (by simp [ha]), ihh.2]

/-- Every character of a `takeWhile` result satisfies the predicate. -/
theorem all_takeWhile (p : Char → Bool) (l : List Char) :
    ∀ c ∈ l.takeWhile p, p c = true := by
  induction l with
  | nil => simp
  | cons a l ih =>
    by_cases h : p a = true
    · rw [List.takeWhile_cons_of_pos (by simp [h])]
      intro c hc
      rcases List.mem_cons.mp hc with hc | hc
      · rw [hc]; exact h
      · exact ih c hc
    · rw [List.takeWhile_cons_of_neg (by simp [h])]
      simp

/-- The head of a `dropWhile` result fails the predicate. -/
theorem dropWhile_head_false (p : Char → Bool) (l : List Char) (c : Char)
    (h : (l.dropWhile p).head? = some c) : p c = false := by
  have hh := List.head?_dropWhile_not p l
  rw [h] at hh
  exact hh

/-- Whitespace characters are not digits. -/
theorem isWS_not_digit (c : Char) (h : isWS c = true) : c.isDigit = false := by
  unfold isWS at h
  simp only [decide_eq_true_eq] at h
  rcases h with h | h | h | h <;> subst h <;> decide

/-- Digits are not whitespace. -/
theorem isDigit_not_isWS (c : Char) (h : c.isDigit = true) : isWS c = false := by
  cases hw : isWS c with
  | false => rfl
  | true => rw [isWS_not_digit c hw] at h; cases h

/-- Completeness of the `\s*(\d{1,3})` scan on a well-shaped decomposition. -/
theorem wsDigits_complete (w d rest : List Char)
    (hw : WSRun w) (hd : DigitRun d)
    (hrest : ∀ c, rest.head? = some c → c.isDigit = false) :
    wsDigits (w ++ (d ++ rest)) = some (natOfDigits d, rest) := by
  obtain ⟨hdall, hd1, hd3⟩ := hd
  have hdrest : ∀ c, (d ++ rest).head? = some c → isWS c = false := by
    intro c hc
    cases d with
    | nil => simp at hd1
    | cons a ds =>
      simp only [List.cons_append, List.head?_cons, Option.some.injEq] at hc
      subst hc
      exact isDigit_not_isWS _ (hdall _ (by simp))
  have hsplit1 := takeWhile_run_append isWS w (d ++ rest) hw hdrest
  have hsplit2 := takeWhile_run_append Char.isDigit d rest hdall hrest
  simp only [wsDigits, hsplit1.2, hsplit2.1, hsplit2.2]
  rw [if_pos ⟨hd1, hd3⟩]

/-- Soundness of the `\s*(\d{1,3})` scan: a successful scan decomposes its
input into a whitespace run, a digit run of length 1 to 3 and the remainder,
which does not begin with a digit. -/
theorem wsDigits_sound (l : List Char) (n : Nat) (rest : List Char)
    (h : wsDigits l = some (n, rest)) :
    ∃ w d, l = w ++ (d ++ rest) ∧ WSRun w ∧ DigitRun d ∧ n = natOfDigits d
      ∧ (∀ c, rest.head? = some c → c.isDigit = false) := by
  simp only [wsDigits] at h
  by_cases hlen : 1 ≤ ((l.dropWhile isWS).takeWhile Char.isDigit).length
      ∧ ((l.dropWhile isWS).takeWhile Char.isDigit).length ≤ 3
  · rw [if_pos hlen] at h
    simp only [Option.some.injEq, Prod.mk.injEq] at h
    obtain ⟨hn, hrest⟩ := h
    refine ⟨l.takeWhile isWS, (l.dropWhile isWS).takeWhile Char.isDigit, ?_, ?_, ?_, ?_, ?_⟩
    · rw [← hrest, List.takeWhile_append_dropWhile, List.takeWhile_append_dropWhile]
    · exact all_takeWhile isWS l
    · exact ⟨all_takeWhile Char.isDigit (l.dropWhile isWS), hlen.1, hlen.2⟩
    · exact hn.symm
    · intro c hc
      rw [← hrest] at hc
      exact dropWhile_head_false Char.isDigit (l.dropWhile isWS) c hc
  · rw [if_neg hlen] at h
    cases h

/-- Completeness of the `\s*\)$` scan. -/
theorem closeParen_complete (w : List Char) (hw : WSRun w) :
    closeParen (w ++ [')']) = true := by
  have hsplit := takeWhile_run_append isWS w [')'] hw
    (fun c hc => by
      simp only [List.head?_cons, Option.some.injEq] at hc
      subst hc
      decide)
  simp [closeParen, hsplit.2]

/-- Soundness of the `\s*\)$` scan. -/
theorem closeParen_sound (l : List Char) (h : closeParen l = true) :
    ∃ w, l = w ++ [')'] ∧ WSRun w := by
  simp only [closeParen, decide_eq_true_eq] at h
  refine ⟨l.takeWhile isWS, ?_, all_takeWhile isWS l⟩
  rw [← h, List.takeWhile_append_dropWhile]

/-- The comma scan succeeds exactly on a leading comma. -/
theorem expectComma_eq_some (l rest : List Char) :
    expectComma l = some rest ↔ l = ',' :: rest := by
  cases l with
  | nil => simp [expectComma]
  | cons c cs =>
    by_cases hc : c = ','
    · subst hc
      simp [expectComma]
    · simp [expectComma, hc]

/-- The comma scan on a leading comma. -/
theorem expectComma_comma (l : List Char) : expectComma (',' :: l) = some l := by
  simp [expectComma]

/-- Soundness of the embedded color regular expression: a match decomposes
the input into the amended shape. -/
theorem matchColor_sound (s : String) (r g b : Nat)
    (h : matchColor s = some (r, g, b)) : SpecColorShape s r g b := by
  unfold matchColor at h
  split at h
  case h_2 => cases h
  case h_1 rest heq =>
    unfold matchColorTail at h
    cases h1 : wsDigits rest with
    | none => simp only [h1] at h; cases h
    | some p1 =>
      obtain ⟨r1, l1⟩ := p1
      simp only [h1] at h
      cases h2 : expectComma l1 with
      | none => simp only [h2] at h; cases h
      | some l2 =>
        simp only [h2] at h
        cases h3 : wsDigits l2 with
        | none => simp only [h3] at h; cases h
        | some p2 =>
          obtain ⟨g1, l3⟩ := p2
          simp only [h3] at h
          cases h4 : expectComma l3 with
          | none => simp only [h4] at h; cases h
          | some l4 =>
            simp only [h4] at h
            cases h5 : wsDigits l4 with
            | none => simp only [h5] at h; cases h
            | some p3 =>
              obtain ⟨b1, l5⟩ := p3
              simp only [h5] at h
              by_cases h6 : closeParen l5 = true
              · rw [if_pos h6] at h
                simp only [Option.some.injEq, Prod.mk.injEq] at h
                obtain ⟨hr1, hg1, hb1⟩ := h
                obtain ⟨w1, d1, heq1, hw1, hd1, hn1, hh1⟩ := wsDigits_sound rest r1 l1 h1
                have hl1 : l1 = ',' :: l2 := (expectComma_eq_some l1 l2).mp h2
                obtain ⟨w2, d2, heq2, hw2, hd2, hn2, hh2⟩ := wsDigits_sound l2 g1 l3 h3
                have hl3 : l3 = ',' :: l4 := (expectComma_eq_some l3 l4).mp h4
                obtain ⟨w3, d3, heq3, hw3, hd3, hn3, hh3⟩ := wsDigits_sound l4 b1 l5 h5
                obtain ⟨w4, hl5, hw4⟩ := closeParen_sound l5 h6
                refine ⟨w1, d1, w2, d2, w3, d3, w4, ?_, hw1, hw2, hw3, hw4, hd1, hd2, hd3,
                  ?_, ?_, ?_⟩
                · rw [heq, heq1, hl1, heq2, hl3, heq3, hl5]
                  simp [List.append_assoc]
                · rw [← hr1]; exact hn1
                · rw [← hg1]; exact hn2
                · rw [← hb1]; exact hn3
              · rw [if_neg h6] at h
                cases h

set_option maxHeartbeats 1000000 in
/-- Completeness of the embedded color regular expression on the amended
shape. -/
theorem matchColor_complete (s : String) (r g b : Nat) (h : SpecColorShape s r g b) :
    matchColor s = some (r, g, b) := by
  obtain ⟨w1, d1, w2, d2, w3, d3, w4, hlist, hw1, hw2, hw3, hw4, hd1, hd2, hd3, hr, hg, hb⟩ := h
  have hh1 : ∀ c, (',' :: (w2 ++ (d2 ++ (',' :: (w3 ++ (d3 ++ (w4 ++ [')'])))))) : List Char).head?
      = some c → c.isDigit = false := by
    intro c hc
    simp only [List.head?_cons, Option.some.injEq] at hc
    subst hc
    decide
  have hh2 : ∀ c, ((',' :: (w3 ++ (d3 ++ (w4 ++ [')'])))) : List Char).head?
      = some c → c.isDigit = false := by
    intro c hc
    simp only [List.head?_cons, Option.some.injEq] at hc
    subst hc
    decide
  have hh3 : ∀ c, ((w4 ++ [')']) : List Char).head? = some c → c.isDigit = false := by
    intro c hc
    cases w4 with
    | nil =>
      simp only [List.nil_append, List.head?_cons, Option.some.injEq] at hc
      subst hc
      decide
    | cons a ws =>
      simp only [List.cons_append, List.head?_cons, Option.some.injEq] at hc
      subst hc
      exact isWS_not_digit _ (hw4 _ (by simp))
  have s1 := wsDigits_complete w1 d1
    (',' :: (w2 ++ (d2 ++ (',' :: (w3 ++ (d3 ++ (w4 ++ [')']))))))) hw1 hd1 hh1
  have s2 := wsDigits_complete w2 d2
    (',' :: (w3 ++ (d3 ++ (w4 ++ [')']))))  hw2 hd2 hh2
  have s3 := wsDigits_complete w3 d3 (w4 ++ [')']) hw3 hd3 hh3
  have s4 := closeParen_complete w4 hw4
  unfold matchColor
  rw [hlist]
  rw [show (['r', 'g', 'b', '('] : List Char) ++ w1 ++ d1 ++ [','] ++ w2 ++ d2 ++ [',']
        ++ w3 ++ d3 ++ w4 ++ [')']
      = 'r' :: 'g' :: 'b' :: '('
          :: (w1 ++ (d1 ++ (',' :: (w2 ++ (d2 ++ (',' :: (w3 ++ (d3 ++ (w4 ++ [')']))))))))) from by
    simp [List.append_assoc]]
  show matchColorTail
      (w1 ++ (d1 ++ (',' :: (w2 ++ (d2 ++ (',' :: (w3 ++ (d3 ++ (w4 ++ [')'])))))))))
    = some (r, g, b)
  simp only [matchColorTail, s1, expectComma_comma, s2, s3, s4, if_true]
  rw [hr, hg, hb]

/-- C4 counterexample: the claim's shape accepts whitespace before a comma
and numerals of any length, but the validator rejects both.
`"rgb(1 ,2,3)"` and `"rgb(0001,2,3)"` are of the claim's shape with all
components in range, and on both the validator throws (the `TypeError` from
slicing the `null` returned by `exec`). -/
theorem c4_counterexample :
    ClaimColorShape "rgb(1 ,2,3)" 1 2 3
    ∧ Template.validateColorValue "rgb(1 ,2,3)"
        = .error (.typeError "Cannot read properties of null")
    ∧ ClaimColorShape "rgb(0001,2,3)" 1 2 3
    ∧ Template.validateColorValue "rgb(0001,2,3)"
        = .error (.typeError "Cannot read properties of null") := by
  refine ⟨⟨[], ['1'], [' '], [], ['2'], [], [], ['3'], [], by decide⟩, rfl,
    ⟨[], ['0', '0', '0', '1'], [], [], ['2'], [], [], ['3'], [], by decide⟩, rfl⟩

/-- C4 as amended: the color validator succeeds exactly on strings of the
shape `rgb(R, G, B)` where whitespace is optional only directly after the
opening parenthesis, directly after each comma and directly before the
closing parenthesis, `R`, `G`, `B` are 1-to-3-digit decimal numerals, and
each parsed component is at most 255; every other string fails (a shape
mismatch throws the runtime `TypeError`, an out-of-range component throws
the format error); on success the `foregroundColor` / `labelColor` setters
store the original input string unchanged, so the subsequent getter returns
that exact string. -/
theorem c4_color_validator (s : String) :
    (Template.validateColorValue s = .ok () ↔
      ∃ r g b, SpecColorShape s r g b ∧ r ≤ 255 ∧ g ≤ 255 ∧ b ≤ 255)
    ∧ (∀ (t : Template) (res : Template × Option JValue),
        t.foregroundColor (some (.str s)) = .ok res →
        res.1.foregroundColor none = .ok (res.1, some (.str s)))
    ∧ (∀ (t : Template) (res : Template × Option JValue),
        t.labelColor (some (.str s)) = .ok res →
        res.1.labelColor none = .ok (res.1, some (.str s))) := by
  refine ⟨⟨?_, ?_⟩, ?_, ?_⟩
  · intro h
    unfold Template.validateColorValue at h
    cases hm : matchColor s with
    | none => simp only [hm] at h; cases h
    | some trip =>
      obtain ⟨r, g, b⟩ := trip
      simp only [hm] at h
      by_cases hr : 255 < r
      · rw [if_pos hr] at h; cases h
      · rw [if_neg hr] at h
        by_cases hg : 255 < g
        · rw [if_pos hg] at h; cases h
        · rw [if_neg hg] at h
          by_cases hb : 255 < b
          · rw [if_pos hb] at h; cases h
          · exact ⟨r, g, b, matchColor_sound s r g b hm, by omega, by omega, by omega⟩
  · rintro ⟨r, g, b, hshape, hr, hg, hb⟩
    have hm := matchColor_complete s r g b hshape
    unfold Template.validateColorValue
    simp only [hm]
    rw [if_neg (by omega), if_neg (by omega), if_neg (by omega)]
  · intro t res h
    cases hval : Template.validateColorValue (jsToString (JValue.str s)) with
    | error e => simp [Template.foregroundColor, hval] at h
    | ok u =>
      simp [Template.foregroundColor, hval] at h
      subst h
      simp [Template.foregroundColor, Template.getField, Template.storeField,
        lookupField_setField]
  · intro t res h
    cases hval : Template.validateColorValue (jsToString (JValue.str s)) with
    | error e => simp [Template.labelColor, hval] at h
    | ok u =>
      simp [Template.labelColor, hval] at h
      subst h
      simp [Template.labelColor, Template.getField, Template.storeField,
        lookupField_setField]

/-- Witness for C4 as amended, on the spec's own examples:
`rgb(255,255,255)` is accepted (and decomposes into the amended shape), and
after setting it, the getter returns that exact string. -/
theorem c4_color_validator_witness :
    (∃ r g b, SpecColorShape "rgb(255,255,255)" r g b ∧ r ≤ 255 ∧ g ≤ 255 ∧ b ≤ 255)
    ∧ Template.foregroundColor
        { style := "coupon", fields := [("foregroundColor", JValue.str "rgb(255,255,255)")],
          keysPath := some (.str "keys"), password := none, images := some { files := [] } }
        none
      = .ok ({ style := "coupon",
               fields := [("foregroundColor", JValue.str "rgb(255,255,255)")],
               keysPath := some (.str "keys"), password := none,
               images := some { files := [] } }, some (.str "rgb(255,255,255)"))
    ∧ Template.validateColorValue "rgb(256,0,0)"
        = .error (.error "Invalid color value rgb(256,0,0)")
    ∧ Template.validateColorValue "not-a-color"
        = .error (.typeError "Cannot read properties of null") := by
  refine ⟨(c4_color_validator "rgb(255,255,255)").1.mp rfl, ?_, rfl, rfl⟩
  exact (c4_color_validator "rgb(255,255,255)").2.1
    { style := "coupon", fields := [], keysPath := some (.str "keys"), password := none,
      images := some { files := [] } }
    ({ style := "coupon", fields := [("foregroundColor", JValue.str "rgb(255,255,255)")],
       keysPath := some (.str "keys"), password := none,
       images := some { files := [] } }, none)
    rfl

/-! ### Constructor dispatch lemmas (claims C7 and C9) -/

/-- `Template.keys` never changes the style. -/
theorem keys_style (t : Template) (p pw : Option JValue) : (t.keys p pw).style = t.style := by
  unfold Template.keys
  cases p <;> cases pw <;> simp <;> split_ifs <;> rfl

/-- A one-argument `keys` call never changes the password. -/
theorem keys_password_none (t : Template) (p : Option JValue) :
    (t.keys p none).password = t.password := by
  unfold Template.keys
  cases p
  · rfl
  · simp only []
    split_ifs <;> rfl

/-- On a good entry the dispatch succeeds, stores the setter's value
(`storedVal`) under the key exactly when the key is a recognised field name,
and touches neither style nor password. -/
theorem applyField_good (t : Template) (k : String) (v : JValue)
    (hgood : goodEntry (k, v) = true) :
    ∃ t1, t.applyField k v = .ok t1
      ∧ t1.fields = (if k ∈ fieldNames then setField t.fields k (storedVal k v) else t.fields)
      ∧ t1.style = t.style ∧ t1.password = t.password := by
  by_cases h1 : k = "passTypeIdentifier"
  · subst h1
    refine ⟨t.storeField "passTypeIdentifier" v, rfl, ?_, rfl, rfl⟩
    rw [if_pos (by decide)]; rfl
  ·
    by_cases h2 : k = "teamIdentifier"
    · subst h2
      refine ⟨t.storeField "teamIdentifier" v, rfl, ?_, rfl, rfl⟩
      rw [if_pos (by decide)]; rfl
    ·
      by_cases h3 : k = "backgroundColor"
      · subst h3
        refine ⟨t.storeField "backgroundColor" v, rfl, ?_, rfl, rfl⟩
        rw [if_pos (by decide)]; rfl
      ·
        by_cases h4 : k = "foregroundColor"
        · subst h4
          have hval : Template.validateColorValue (jsToString v) = .ok () := by
            cases hv : Template.validateColorValue (jsToString v) with
            | ok u => cases u; rfl
            | error e => simp [goodEntry, hv] at hgood
          refine ⟨t.storeField "foregroundColor" v, ?_, ?_, rfl, rfl⟩
          · simp [Template.applyField, Template.foregroundColor, hval, Except.map]
          · rw [if_pos (by decide)]; rfl
        ·
          by_cases h5 : k = "labelColor"
          · subst h5
            have hval : Template.validateColorValue (jsToString v) = .ok () := by
              cases hv : Template.validateColorValue (jsToString v) with
              | ok u => cases u; rfl
              | error e => simp [goodEntry, hv] at hgood
            refine ⟨t.storeField "labelColor" v, ?_, ?_, rfl, rfl⟩
            · simp [Template.applyField, Template.labelColor, hval, Except.map]
            · rw [if_pos (by decide)]; rfl
          ·
            by_cases h6 : k = "logoText"
            · subst h6
              refine ⟨t.storeField "logoText" v, rfl, ?_, rfl, rfl⟩
              rw [if_pos (by decide)]; rfl
            ·
              by_cases h7 : k = "organizationName"
              · subst h7
                refine ⟨t.storeField "organizationName" v, rfl, ?_, rfl, rfl⟩
                rw [if_pos (by decide)]; rfl
              ·
                by_cases h8 : k = "groupingIdentifier"
                · subst h8
                  refine ⟨t.storeField "groupingIdentifier" v, rfl, ?_, rfl, rfl⟩
                  rw [if_pos (by decide)]; rfl
                ·
                  by_cases h9 : k = "suppressStripShine"
                  · subst h9
                    cases v with
                    | boolean b =>
                      refine ⟨t.storeField "suppressStripShine" (.boolean b), ?_, ?_, rfl, rfl⟩
                      · simp [Template.applyField, Template.suppressStripShine, Except.map]
                      · rw [if_pos (by decide)]; rfl
                    | str s => simp [goodEntry] at hgood
                    | num n => simp [goodEntry] at hgood
                    | jobj g => simp [goodEntry] at hgood
                  ·
                    by_cases h10 : k = "webServiceURL"
                    · subst h10
                      have hurl : ∃ u, parseURL (jsToString v) = some u
                          ∧ URLModel.protocol u = "https:" := by
                        cases hp : parseURL (jsToString v) with
                        | none => simp [goodEntry, hp] at hgood
                        | some u =>
                          refine ⟨u, rfl, ?_⟩
                          simpa [goodEntry, hp] using hgood
                      obtain ⟨u, hp, hproto⟩ := hurl
                      have hst : storedVal "webServiceURL" v = .str (URLModel.toString u) := by
                        simp [storedVal, hp]
                      refine ⟨t.storeField "webServiceURL" (.str (URLModel.toString u)),
                        ?_, ?_, rfl, rfl⟩
                      · simp [Template.applyField, Template.webServiceURL, hp, hproto,
                          Except.map]
                      · rw [if_pos (by decide), hst]; rfl
                    ·
                      by_cases h11 : k = "keys"
                      · subst h11
                        refine ⟨t.keys (some v) none, rfl, ?_, keys_style t _ _, keys_password_none t _⟩
                        rw [if_neg (by decide), keys_fields]
                      ·
                        by_cases h12 : k = "createPass"
                        · subst h12
                          exact ⟨t, rfl, by rw [if_neg (by decide)], rfl, rfl⟩
                        ·
                          by_cases h13 : k = "constructor"
                          · subst h13
                            simp [goodEntry] at hgood
                          ·
                            by_cases h14 : k = "__defineGetter__"
                            · subst h14
                              simp [goodEntry] at hgood
                            ·
                              by_cases h15 : k = "__defineSetter__"
                              · subst h15
                                simp [goodEntry] at hgood
                              ·
                                have hnotmem : ¬ k ∈ fieldNames := by
                                  simp only [fieldNames, List.mem_cons, List.not_mem_nil, or_false]
                                  push_neg
                                  exact ⟨h1, h2, h3, h4, h5, h6, h7, h8, h9, h10⟩
                                refine ⟨t, ?_, ?_, rfl, rfl⟩
                                · unfold Template.applyField
                                  rw [if_neg h1, if_neg h2, if_neg h3, if_neg h4, if_neg h5, if_neg h6, if_neg h7, if_neg h8, if_neg h9, if_neg h10, if_neg h11, if_neg h12, if_neg h13, if_neg h14, if_neg h15]
                                · rw [if_neg hnotmem]

/-- The constructor's field-application loop on a good, duplicate-free
definition whose keys are fresh: it succeeds, appends exactly the
recognised-field entries to the field mapping (each value as its setter
stores it), and touches neither style nor password. -/
theorem applyEntries_good (entries : List (String × JValue)) :
    ∀ t : Template,
      (∀ kv ∈ entries, goodEntry kv = true) →
      (entries.map Prod.fst).Nodup →
      (∀ k2 ∈ entries.map Prod.fst, ¬ k2 ∈ t.fields.map Prod.fst) →
      ∃ t' : Template, Template.applyEntries t entries = .ok t'
        ∧ t'.fields = t.fields
            ++ (entries.filter (fun kv => kv.1 ∈ fieldNames)).map
                 (fun kv => (kv.1, storedVal kv.1 kv.2))
        ∧ t'.style = t.style ∧ t'.password = t.password := by
  induction entries with
  | nil =>
    intro t _ _ _
    exact ⟨t, rfl, by simp, rfl, rfl⟩
  | cons kv rest ih =>
    intro t hgood hnodup hdisj
    obtain ⟨k, v⟩ := kv
    obtain ⟨t1, happ, hf1, hs1, hp1⟩ := applyField_good t k v (hgood (k, v) (by simp))
    have hnodup2 : (rest.map Prod.fst).Nodup := by
      simp only [List.map_cons, List.nodup_cons] at hnodup
      exact hnodup.2
    have hknot : ¬ k ∈ rest.map Prod.fst := by
      simp only [List.map_cons, List.nodup_cons] at hnodup
      exact hnodup.1
    have hkabs : ¬ k ∈ t.fields.map Prod.fst := hdisj k (by simp)
    have hdisj2 : ∀ k2 ∈ rest.map Prod.fst, ¬ k2 ∈ t1.fields.map Prod.fst := by
      intro k2 hk2 hmem
      by_cases hkin : k ∈ fieldNames
      · rw [hf1, if_pos hkin, setField_eq_append t.fields k (storedVal k v) hkabs,
          List.map_append] at hmem
        rcases List.mem_append.mp hmem with hmem | hmem
        · exact hdisj k2 (by simp [hk2]) hmem
        · simp only [List.map_cons, List.map_nil, List.mem_singleton] at hmem
          subst hmem
          exact hknot hk2
      · rw [hf1, if_neg hkin] at hmem
        exact hdisj k2 (by simp [hk2]) hmem
    obtain ⟨t', happ2, hf2, hs2, hp2⟩ :=
      ih t1 (fun kv2 hkv2 => hgood kv2 (by simp [hkv2])) hnodup2 hdisj2
    refine ⟨t', ?_, ?_, by rw [hs2, hs1], by rw [hp2, hp1]⟩
    · simp only [Template.applyEntries, happ]
      exact happ2
    · rw [hf2, hf1]
      by_cases hkin : k ∈ fieldNames
      · rw [if_pos hkin, setField_eq_append t.fields k (storedVal k v) hkabs,
          List.filter_cons, if_pos (by simp [hkin])]
        simp [List.append_assoc]
      · rw [if_neg hkin, List.filter_cons, if_neg (by simp [hkin])]

/-- C7 as amended: with steps 1 and 2 succeeding, a definition read/parse
rejection aborts `load` with that error; a definition with no registry key
among its top-level keys fails with the unknown-style error; and a
well-formed event-ticket bundle — only registry key `eventTicket`, entries
that pass their validators (valid colors, a boolean `suppressStripShine`, an
`https` URL for `webServiceURL`), no key naming a throwing prototype method
(`constructor`, `__defineGetter__`, `__defineSetter__`), no duplicate keys,
a string `passTypeIdentifier` — loads into a template whose style is
`eventTicket` and whose field mapping is the definition's content restricted
to the ten recognised field names, each value as its setter stores it: the
original value for nine fields, the normalised URL serialisation for
`webServiceURL` (not the whole definition: the style key itself and every
other unrecognised key are dropped). -/
theorem c7_load_behaviour (env : LoadEnv) (fp : String) (pw : Option JValue) :
    (∀ st e, env.folderStat = .ok st → st.isDir = true → env.passJson = .error e →
      Template.load env fp pw = .error e)
    ∧ (∀ st j, env.folderStat = .ok st → st.isDir = true → env.passJson = .ok j →
        (∀ ty ∈ PASS_STYLES, hasKey j ty = false) →
        Template.load env fp pw = .error (.error "Unknown pass style!"))
    ∧ (∀ st j imgs ident, env.folderStat = .ok st → st.isDir = true →
        env.passJson = .ok j →
        hasKey j "eventTicket" = true →
        (∀ ty ∈ PASS_STYLES, ty ≠ "eventTicket" → hasKey j ty = false) →
        (∀ kv ∈ j, goodEntry kv = true) →
        (j.map Prod.fst).Nodup →
        env.imagesLoad = .ok imgs →
        lookupField j "passTypeIdentifier" = some (.str ident) →
        ∃ t, Template.load env fp pw = .ok t
          ∧ t.style = "eventTicket"
          ∧ t.fields = (j.filter (fun kv => kv.1 ∈ fieldNames)).map
              (fun kv => (kv.1, storedVal kv.1 kv.2))) := by
  refine ⟨?_, ?_, ?_⟩
  · intro st e h1 h2 h3
    simp [Template.load, h1, h2, h3]
  · intro st j h1 h2 h3 hstyle
    have hdet : detectStyle j = none :=
      List.find?_eq_none.mpr (fun x hx => by simp [hstyle x hx])
    simp [Template.load, h1, h2, h3, hdet]
  · intro st j imgs ident h1 h2 h3 hket honly hgood hnodup himg hlook
    have hb : hasKey j "boardingPass" = false := honly _ (by decide) (by decide)
    have hc : hasKey j "coupon" = false := honly _ (by decide) (by decide)
    have hdet : detectStyle j = some "eventTicket" := by
      simp [detectStyle, PASS_STYLES, List.find?, hb, hc, hket]
    obtain ⟨t1, happ, hf1, hs1, hp1⟩ := applyEntries_good j
      { style := "eventTicket", fields := [], keysPath := none, password := none,
        images := none }
      hgood hnodup (by simp)
    have hcon : Template.construct "eventTicket" j
        = .ok { t1 with keysPath := some (.str "keys"), images := some { files := [] } } := by
      unfold Template.construct
      rw [if_pos (by decide), happ]
    have hfields : t1.fields = (j.filter (fun kv => kv.1 ∈ fieldNames)).map
        (fun kv => (kv.1, storedVal kv.1 kv.2)) := by
      rw [hf1]
      simp
    simp [Template.load, h1, h2, h3, hdet, hcon, himg, hlook]
    cases hk : env.keyStat (stripPassDot ident ++ ".pem") with
    | error e =>
      refine ⟨{ t1 with keysPath := some (.str "keys"), images := some imgs }, by simp, ?_, ?_⟩
      · exact hs1
      · exact hfields
    | ok ks =>
      cases hf : ks.isFile with
      | true =>
        refine ⟨Template.keys
          { t1 with keysPath := some (.str "keys"), images := some imgs }
          (some (.str fp)) pw, by simp [hf], ?_, ?_⟩
        · rw [keys_style]; exact hs1
        · rw [keys_fields]; exact hfields
      | false =>
        refine ⟨{ t1 with keysPath := some (.str "keys"), images := some imgs },
          by simp [hf], ?_, ?_⟩
        · exact hs1
        · exact hfields

/-- Witness for C7 as amended: a concrete event-ticket bundle with a
`passTypeIdentifier`, a `logoText` and an `https` `webServiceURL` loads into
a template with style `eventTicket` whose fields are exactly the recognised
entries as their setters store them — `webServiceURL` in normalised form —
without the `eventTicket` style key. -/
theorem c7_load_behaviour_witness :
    (∃ t, Template.load
      { folderStat := .ok { isDir := true, isFile := false }
        passJson := .ok [("eventTicket", JValue.jobj 0),
                         ("passTypeIdentifier", JValue.str "pass.com.example"),
                         ("logoText", JValue.str "Event"),
                         ("webServiceURL", JValue.str "https://example.com")]
        imagesLoad := .ok { files := ["icon.png"] }
        keyStat := fun _ => .error (.error "ENOENT") } "bundle" none = .ok t
      ∧ t.style = "eventTicket"
      ∧ t.fields = (List.filter (fun kv => kv.1 ∈ fieldNames)
          [("eventTicket", JValue.jobj 0),
           ("passTypeIdentifier", JValue.str "pass.com.example"),
           ("logoText", JValue.str "Event"),
           ("webServiceURL", JValue.str "https://example.com")]).map
          (fun kv => (kv.1, storedVal kv.1 kv.2)))
    ∧ (List.filter (fun kv => kv.1 ∈ fieldNames)
          [("eventTicket", JValue.jobj 0),
           ("passTypeIdentifier", JValue.str "pass.com.example"),
           ("logoText", JValue.str "Event"),
           ("webServiceURL", JValue.str "https://example.com")]).map
          (fun kv => (kv.1, storedVal kv.1 kv.2))
        = [("passTypeIdentifier", JValue.str "pass.com.example"),
           ("logoText", JValue.str "Event"),
           ("webServiceURL", JValue.str "https://example.com/")] :=
  ⟨(c7_load_behaviour _ "bundle" none).2.2 { isDir := true, isFile := false }
    [("eventTicket", JValue.jobj 0), ("passTypeIdentifier", JValue.str "pass.com.example"),
     ("logoText", JValue.str "Event"), ("webServiceURL", JValue.str "https://example.com")]
    { files := ["icon.png"] } "pass.com.example"
    rfl rfl rfl (by decide) (by decide) (by decide) (by decide) rfl rfl, by decide⟩

/-- C9 counterexample: the key `"constructor"` does not match any known field
name, yet it is not silently ignored: `typeof this['constructor']` is
`'function'` (the class itself, reached through the prototype chain), and
invoking a class constructor without `new` throws a `TypeError`, so the whole
construction aborts instead of leaving the template unaffected. -/
theorem c9_counterexample :
    ¬ ("constructor" : String) ∈ fieldNames
    ∧ Template.construct "coupon" [("constructor", JValue.str "x")]
        = .error (.typeError "Class constructor Template cannot be invoked without new") :=
  ⟨by decide, rfl⟩

/-- C9 as amended: during construction, every key naming one of the ten
recognised fields dispatches to that field's setter (running its validation);
every key that names no method at all — no recognised field, not `keys`,
`createPass` or the throwing prototype entries — is ignored with no effect
whatsoever; but a key naming another callable method is invoked: `keys`
stores its value as `keysPath` (an effect the constructor then overwrites, so
a `keys` entry leaves no trace on the finished template), `createPass` builds
and discards a `Pass`, and `constructor` aborts the construction with a
`TypeError`. -/
theorem c9_dispatch_policy (t : Template) (v : JValue) :
    (∀ k, ¬ k ∈ methodNames → t.applyField k v = .ok t)
    ∧ t.applyField "passTypeIdentifier" v = (t.passTypeIdentifier (some v)).map Prod.fst
    ∧ t.applyField "teamIdentifier" v = (t.teamIdentifier (some v)).map Prod.fst
    ∧ t.applyField "backgroundColor" v = (t.backgroundColor (some v)).map Prod.fst
    ∧ t.applyField "foregroundColor" v = (t.foregroundColor (some v)).map Prod.fst
    ∧ t.applyField "labelColor" v = (t.labelColor (some v)).map Prod.fst
    ∧ t.applyField "logoText" v = (t.logoText (some v)).map Prod.fst
    ∧ t.applyField "organizationName" v = (t.organizationName (some v)).map Prod.fst
    ∧ t.applyField "groupingIdentifier" v = (t.groupingIdentifier (some v)).map Prod.fst
    ∧ t.applyField "suppressStripShine" v = (t.suppressStripShine (some v)).map Prod.fst
    ∧ t.applyField "webServiceURL" v = (t.webServiceURL (some v)).map Prod.fst
    ∧ t.applyField "keys" v = .ok (t.keys (some v) none)
    ∧ t.applyField "createPass" v = .ok t
    ∧ t.applyField "constructor" v
        = .error (.typeError "Class constructor Template cannot be invoked without new", t)
    ∧ (∀ style, Template.construct style [("keys", v)] = Template.construct style []) := by
  refine ⟨?_, rfl, rfl, rfl, rfl, rfl, rfl, rfl, rfl, rfl, rfl, rfl, rfl, rfl, ?_⟩
  · intro k hk
    have h1 : k ≠ "passTypeIdentifier" := fun hh => hk (by rw [hh]; decide)
    have h2 : k ≠ "teamIdentifier" := fun hh => hk (by rw [hh]; decide)
    have h3 : k ≠ "backgroundColor" := fun hh => hk (by rw [hh]; decide)
    have h4 : k ≠ "foregroundColor" := fun hh => hk (by rw [hh]; decide)
    have h5 : k ≠ "labelColor" := fun hh => hk (by rw [hh]; decide)
    have h6 : k ≠ "logoText" := fun hh => hk (by rw [hh]; decide)
    have h7 : k ≠ "organizationName" := fun hh => hk (by rw [hh]; decide)
    have h8 : k ≠ "groupingIdentifier" := fun hh => hk (by rw [hh]; decide)
    have h9 : k ≠ "suppressStripShine" := fun hh => hk (by rw [hh]; decide)
    have h10 : k ≠ "webServiceURL" := fun hh => hk (by rw [hh]; decide)
    have h11 : k ≠ "keys" := fun hh => hk (by rw [hh]; decide)
    have h12 : k ≠ "createPass" := fun hh => hk (by rw [hh]; decide)
    have h13 : k ≠ "constructor" := fun hh => hk (by rw [hh]; decide)
    have h14 : k ≠ "__defineGetter__" := fun hh => hk (by rw [hh]; decide)
    have h15 : k ≠ "__defineSetter__" := fun hh => hk (by rw [hh]; decide)
    unfold Template.applyField
    rw [if_neg h1, if_neg h2, if_neg h3, if_neg h4, if_neg h5, if_neg h6, if_neg h7,
      if_neg h8, if_neg h9, if_neg h10, if_neg h11, if_neg h12, if_neg h13, if_neg h14,
      if_neg h15]
  · intro style
    unfold Template.construct
    by_cases hs : PASS_STYLES.contains style = true
    · rw [if_pos hs, if_pos hs]
      cases htr : truthy v <;>
        simp [Template.applyEntries, Template.applyField, Template.keys, htr]
    · rw [if_neg hs, if_neg hs]

/-- Witness for C9 as amended: the unrecognised key `somethingElse` is
dispatched to no method and leaves the template exactly as it was. -/
theorem c9_dispatch_policy_witness :
    Template.applyField
      { style := "coupon", fields := [], keysPath := some (.str "keys"), password := none,
        images := some { files := [] } } "somethingElse" (JValue.str "x")
      = .ok { style := "coupon", fields := [], keysPath := some (.str "keys"),
              password := none, images := some { files := [] } } :=
  (c9_dispatch_policy _ (JValue.str "x")).1 "somethingElse" (by decide)
